import Mathlib

/-!
Verification of the mixxx track-metadata tag adapters and the Serato
beatgrid codec.

The development shallowly embeds the code of
`src/track/trackmetadatataglib.cpp` and `src/track/serato/beatgrid.h`.
Qt/TagLib strings become `String`, TagLib string lists become
`List String`, frame/field/atom/item maps become functions
`String -> List String` (an absent key is represented by the empty
list, which is exactly how the code observes absence through its read
helpers), machine integers become `Nat`, and C++ `double` values become
`Rat` (the adapters only parse, compare and divide such values by 10).
Helper classes that are external to the two source files (`Bpm`,
`ReplayGain`, `TrackNumbers`, `TrackMetadata`, Qt date handling) are
modelled from the specification; each such definition carries a doc
comment saying so.
-/

/-! ## Shared string and number primitives -/

/-- Whitespace recognition used by Qt's `QString::trimmed`. -/
def charIsSpace (c : Char) : Bool :=
  c.toNat = 32 || (9 ≤ c.toNat && c.toNat ≤ 13)

/-- Embeds `QString::trimmed`: strips whitespace from both ends. -/
def qStringTrimmed (s : String) : String :=
  String.mk (((s.toList.dropWhile charIsSpace).reverse.dropWhile
    charIsSpace).reverse)

/-- ASCII lower-casing of a character (the strings compared
case-insensitively by the adapter are ASCII frame descriptions). -/
def charToLower (c : Char) : Char :=
  if 65 ≤ c.toNat ∧ c.toNat ≤ 90 then Char.ofNat (c.toNat + 32) else c

/-- Lower-casing of a string, character by character. -/
def stringToLower (s : String) : String :=
  String.mk (s.toList.map charToLower)

/-- Suffix test on strings. -/
def stringEndsWith (s suffix : String) : Bool :=
  List.isSuffixOf suffix.toList s.toList

/-- Drops the last `n` characters of a string. -/
def stringDropRight (s : String) (n : Nat) : String :=
  String.mk (s.toList.take (s.toList.length - n))

/-- Returns the first element of a TagLib string list that is not empty
(`toQStringFirstNotEmpty` in `trackmetadatataglib.cpp`). -/
def toQStringFirstNotEmpty (strList : List String) : String :=
  match strList.find? (fun s => s ≠ "") with
  | some s => s
  | none => ""

/-- Parses a list of decimal digit characters into a natural number;
fails when a non-digit occurs. -/
def parseNatDigitsAux : Nat → List Char → Option Nat
  | acc, [] => some acc
  | acc, c :: cs =>
    if c.isDigit then parseNatDigitsAux (acc * 10 + (c.toNat - 48)) cs
    else none

/-- Parses a non-empty all-digit character list into a natural number. -/
def parseNatDigits (cs : List Char) : Option Nat :=
  if cs.isEmpty then none else parseNatDigitsAux 0 cs

/-- Splits a character list at the first decimal point, if any. -/
def splitAtDot (cs : List Char) : List Char × Option (List Char) :=
  match cs.span (fun c => c ≠ '.') with
  | (pre, []) => (pre, none)
  | (pre, _ :: post) => (pre, some post)

/-- Modelled from the spec: `parseNumeric(text) -> (value, isValid)` for
an unsigned decimal number with an optional fractional part (the numeric
parsing helpers of `Bpm` and `ReplayGain` are not part of the sources). -/
def parseUnsignedDecimal (cs : List Char) : Option Rat :=
  match splitAtDot cs with
  | (intPart, none) => (parseNatDigits intPart).map (fun n => (n : Rat))
  | (intPart, some fracPart) =>
    match parseNatDigits intPart, parseNatDigitsAux 0 fracPart with
    | some n, some f => some ((n : Rat) + (f : Rat) / (10 : Rat) ^ fracPart.length)
    | _, _ => none

/-- Modelled from the spec: `parseNumeric(text) -> (value, isValid)` for
a signed decimal number; surrounding whitespace is ignored. -/
def parseRatNumber (s : String) : Option Rat :=
  match (qStringTrimmed s).toList with
  | '-' :: rest => (parseUnsignedDecimal rest).map (fun q => -q)
  | '+' :: rest => parseUnsignedDecimal rest
  | cs => parseUnsignedDecimal cs

/-! ## Replay gain and BPM values -/

/-- Modelled from the spec: the replay-gain ratio carries a sentinel
"undefined" value distinct from every defined gain; a defined gain is
identified by the dB value it was parsed from (class `ReplayGain` is not
part of the sources). -/
inductive RGRatio where
  | undefined : RGRatio
  | fromDb (db : Rat) : RGRatio
deriving DecidableEq, Repr

/-- Modelled from the spec: the sentinel "undefined" replay-gain value
(`ReplayGain::kRatioUndefined`). -/
def kRatioUndefined : RGRatio := RGRatio.undefined

/-- Modelled from the spec: the replay-gain ratio corresponding to a
gain of exactly 0 dB (`ReplayGain::kRatio0dB`). -/
def kRatio0dB : RGRatio := RGRatio.fromDb 0

/-- Modelled from the spec: drops a trailing "dB" unit from a
replay-gain text. -/
def stripDbSuffix (s : String) : String :=
  let t := qStringTrimmed s
  if stringEndsWith t "dB" then qStringTrimmed (stringDropRight t 2) else t

/-- Modelled from the spec: `ReplayGain::ratioFromString` parses a
replay-gain text such as "-2.5 dB" into a defined ratio, reporting
validity. -/
def ratioFromString (s : String) : Option RGRatio :=
  (parseRatNumber (stripDbSuffix s)).map RGRatio.fromDb

/-- Modelled from the spec: `ReplayGain::peakFromString` parses a peak
amplitude text, reporting validity. -/
def peakFromString (s : String) : Option Rat := parseRatNumber s

/-- Modelled from the spec: `Bpm::valueFromString` parses a BPM text,
reporting validity. -/
def bpmValueFromString (s : String) : Option Rat := parseRatNumber s

/-! ## The canonical metadata model -/

/-- Modelled from the spec: the canonical metadata model (class
`TrackMetadata` is not part of the sources). Only the fields touched by
the embedded adapter code are carried. -/
structure TrackMetadata where
  title : String := ""
  artist : String := ""
  album : String := ""
  albumArtist : String := ""
  genre : String := ""
  comment : String := ""
  composer : String := ""
  grouping : String := ""
  year : String := ""
  trackNumber : String := ""
  trackTotal : String := ""
  key : String := ""
  bpm : Rat := 0
  replayGain : RGRatio := RGRatio.undefined
  replayGainPeak : Option Rat := none
deriving DecidableEq, Repr

/-- The empty canonical metadata model. -/
def emptyTrackMetadata : TrackMetadata := {}

/-- Embeds `parseBpm` (`trackmetadatataglib.cpp:217`): on a valid parse
the BPM value is stored, otherwise the metadata is left untouched; the
returned flag is the validity. -/
def parseBpm (md : TrackMetadata) (sBpm : String) : TrackMetadata × Bool :=
  match bpmValueFromString sBpm with
  | none => (md, false)
  | some v => ({ md with bpm := v }, true)

/-- Embeds `parseTrackGain` (`trackmetadatataglib.cpp:233`): a parsed
ratio of exactly 0 dB is replaced by the "undefined" sentinel before
being stored; the returned flag is the parse validity. -/
def parseTrackGain (md : TrackMetadata) (dbGain : String) : TrackMetadata × Bool :=
  match ratioFromString dbGain with
  | none => (md, false)
  | some r0 =>
    let r := if r0 = kRatio0dB then kRatioUndefined else r0
    ({ md with replayGain := r }, true)

/-- Embeds `parseTrackPeak` (`trackmetadatataglib.cpp:262`). -/
def parseTrackPeak (md : TrackMetadata) (strPeak : String) : TrackMetadata × Bool :=
  match peakFromString strPeak with
  | none => (md, false)
  | some p => ({ md with replayGainPeak := some p }, true)

/-! ## Generic tag accessor import (shared by all adapters) and RIFF -/

/-- The abstract TagLib tag-accessor view (`TagLib::Tag`): named text
getters plus numeric year and track getters. The derivation of these
values from container frames is done by the external tag library. -/
structure GenericTag where
  title : String := ""
  artist : String := ""
  album : String := ""
  comment : String := ""
  genre : String := ""
  year : Nat := 0
  track : Nat := 0
deriving DecidableEq, Repr

/-- Embeds `importTrackMetadataFromTag` (`trackmetadatataglib.cpp:911`):
the five text fields are overwritten unconditionally; year and track
number are assigned only when the tag reports a strictly positive
number. -/
def importTrackMetadataFromTag (md : TrackMetadata) (tag : GenericTag) : TrackMetadata :=
  let md1 := { md with
    title := tag.title
    artist := tag.artist
    album := tag.album
    comment := tag.comment
    genre := tag.genre }
  let md2 := if 0 < tag.year then { md1 with year := toString tag.year } else md1
  if 0 < tag.track then { md2 with trackNumber := toString tag.track } else md2

/-- The abstract view of a RIFF INFO tag (`TagLib::RIFF::Info::Tag`),
which exposes the same generic accessors. -/
structure RIFFInfoTag where
  title : String := ""
  artist : String := ""
  album : String := ""
  comment : String := ""
  genre : String := ""
  year : Nat := 0
  track : Nat := 0
deriving DecidableEq, Repr

/-- Embeds `importTrackMetadataFromRIFFTag`
(`trackmetadatataglib.cpp:1286`), whose body repeats the generic
accessor import verbatim. -/
def importTrackMetadataFromRIFFTag (md : TrackMetadata) (tag : RIFFInfoTag) : TrackMetadata :=
  let md1 := { md with
    title := tag.title
    artist := tag.artist
    album := tag.album
    comment := tag.comment
    genre := tag.genre }
  let md2 := if 0 < tag.year then { md1 with year := toString tag.year } else md1
  if 0 < tag.track then { md2 with trackNumber := toString tag.track } else md2

/-! ## Track number split/join -/

/-- Modelled from the spec: `splitTrackNumber(text)` splits a combined
track-number text on the first "/" into number and total
(`TrackNumbers::splitString` is not part of the sources). -/
def splitTrackNumberString (s : String) : String × String :=
  match s.toList.span (fun c => c ≠ '/') with
  | (pre, []) => (String.mk pre, "")
  | (pre, _ :: post) => (String.mk pre, String.mk post)

/-- Modelled from the spec: `joinTrackNumber(number, total)` joins with
"/", omitting the separator and total when the total is empty
(`TrackNumbers::joinStrings` is not part of the sources). -/
def joinTrackNumberStrings (number total : String) : String :=
  if total = "" then number else number ++ "/" ++ total

/-! ## The BPM scale-correction loop -/

/-- One fuel-bounded unfolding of the loop
`while (bpmValue > Bpm::kValueMax) bpmValue /= 10.0;` from
`importTrackMetadataFromID3v2Tag` (`trackmetadatataglib.cpp:1031`). -/
def divTenFuel (maxValue : Rat) : Nat → Rat → Rat
  | 0, v => v
  | n + 1, v => if maxValue < v then divTenFuel maxValue n (v / 10) else v

/-- A fuel bound that is large enough for the loop to reach its fixed
point whenever the maximum is positive. -/
def bpmWhileFuel (v maxValue : Rat) : Nat := v.num.natAbs * maxValue.den

/-- The value computed by the BPM scale-correction `while` loop: divide
by 10 until the value no longer exceeds the maximum. -/
def correctBpmValue (v maxValue : Rat) : Rat :=
  divTenFuel maxValue (bpmWhileFuel v maxValue) v

/-! ## The ID3v2 tag model -/

/-- An ID3v2 COMM frame: a description and a comment text
(`TagLib::ID3v2::CommentsFrame`; its `toString` returns the text). -/
structure ID3v2CommentsFrame where
  description : String := ""
  text : String := ""
deriving DecidableEq, Repr

/-- An ID3v2 TXXX frame: the description plus the remaining fields of
its field list (`TagLib::ID3v2::UserTextIdentificationFrame`). -/
structure ID3v2UserTextFrame where
  description : String := ""
  values : List String := []
deriving DecidableEq, Repr

/-- The field list of a TXXX frame: the description is the first field,
the values follow. -/
def ID3v2UserTextFrame.fieldList (f : ID3v2UserTextFrame) : List String :=
  f.description :: f.values

/-- The `toString` of a TXXX frame: the field list joined by spaces
(TagLib `StringList::toString`). -/
def ID3v2UserTextFrame.frameText (f : ID3v2UserTextFrame) : String :=
  String.intercalate " " (f.description :: f.values)

/-- Qt case-insensitive string comparison
(`QString::compare(.., Qt::CaseInsensitive)`). -/
def qStringCaseInsensitiveEq (a b : String) : Bool :=
  stringToLower a == stringToLower b

/-- Loop body of `findFirstCommentsFrame`
(`trackmetadatataglib.cpp:371`), with `preferNotEmpty` fixed to `true`
as at every call site: `firstFrame` carries the first matching frame
seen so far (the C++ `pFirstFrame`). -/
def findFirstCommentsFrameAux (description : String)
    (firstFrame : Option ID3v2CommentsFrame) :
    List ID3v2CommentsFrame → Option ID3v2CommentsFrame
  | [] => firstFrame
  | f :: rest =>
    if qStringCaseInsensitiveEq f.description description then
      if f.text = "" then
        findFirstCommentsFrameAux description
          (firstFrame.orElse (fun _ => some f)) rest
      else some f
    else findFirstCommentsFrameAux description firstFrame rest

/-- Loop body of `findFirstUserTextIdentificationFrame`
(`trackmetadatataglib.cpp:408`), with `preferNotEmpty` fixed to `true`
as at every call site. -/
def findFirstUserTextFrameAux (description : String)
    (firstFrame : Option ID3v2UserTextFrame) :
    List ID3v2UserTextFrame → Option ID3v2UserTextFrame
  | [] => firstFrame
  | f :: rest =>
    if qStringCaseInsensitiveEq f.description description then
      if f.frameText = "" then
        findFirstUserTextFrameAux description
          (firstFrame.orElse (fun _ => some f)) rest
      else some f
    else findFirstUserTextFrameAux description firstFrame rest

/-- The ID3v2 tag: the parsed header major version (`none` when the
header is not parseable), one frame list per text-frame ID used by the
adapter, the COMM and TXXX frame lists, and the generic accessor view
provided by the external tag library. -/
structure ID3v2Tag where
  header : Option Nat := some 4
  tit2 : List String := []
  tpe1 : List String := []
  talb : List String := []
  tcon : List String := []
  tpe2 : List String := []
  toal : List String := []
  tcom : List String := []
  tit1 : List String := []
  tdrc : List String := []
  tyer : List String := []
  tdat : List String := []
  trck : List String := []
  tbpm : List String := []
  tkey : List String := []
  comm : List ID3v2CommentsFrame := []
  txxx : List ID3v2UserTextFrame := []
  generic : GenericTag := {}
deriving DecidableEq, Repr

/-- `tag.header()->majorVersion()`; import code dereferences the header
unconditionally (TagLib always allocates one), so `none` is only
meaningful for the export guard. -/
def ID3v2Tag.majorVersion (tag : ID3v2Tag) : Nat := tag.header.getD 0

/-- `findFirstCommentsFrame` over the tag's COMM frames. -/
def findFirstCommentsFrame (tag : ID3v2Tag) (description : String) :
    Option ID3v2CommentsFrame :=
  findFirstCommentsFrameAux description none tag.comm

/-- `findFirstUserTextIdentificationFrame` over the tag's TXXX frames. -/
def findFirstUserTextFrame (tag : ID3v2Tag) (description : String) :
    Option ID3v2UserTextFrame :=
  findFirstUserTextFrameAux description none tag.txxx

/-! ## Qt date handling for TYER and TDAT -/

/-- Gregorian leap-year rule. -/
def isLeapYear (y : Nat) : Bool :=
  (y % 4 == 0 && y % 100 != 0) || y % 400 == 0

/-- Days in a month of the proleptic Gregorian calendar. -/
def daysInMonth (y m : Nat) : Nat :=
  if m = 2 then (if isLeapYear y then 29 else 28)
  else if m = 4 ∨ m = 6 ∨ m = 9 ∨ m = 11 then 30
  else 31

/-- Validity of a Qt `QDate` built from year, month and day; Qt has no
year zero. -/
def qDateValid (y m d : Nat) : Bool :=
  y != 0 && 1 ≤ m && m ≤ 12 && 1 ≤ d && d ≤ daysInMonth y m

/-- `QDate::fromString(recordingYear + recordingDate, "yyyyddMM")`: four
year digits followed by two day digits and two month digits; any
non-digit or invalid calendar date yields an invalid result. Returns
year, month, day. -/
def qDateFromStringTYERTDAT (s : String) : Option (Nat × Nat × Nat) :=
  match s.toList with
  | [y1, y2, y3, y4, d1, d2, m1, m2] =>
    match parseNatDigits [y1, y2, y3, y4], parseNatDigits [d1, d2],
        parseNatDigits [m1, m2] with
    | some y, some d, some m =>
      if qDateValid y m d then some (y, m, d) else none
    | _, _, _ => none
  | _ => none

/-- Zero-pads a number to two digits. -/
def pad2 (n : Nat) : String :=
  if n < 10 then "0" ++ toString n else toString n

/-- Zero-pads a number to four digits. -/
def pad4 (n : Nat) : String :=
  if n < 10 then "000" ++ toString n
  else if n < 100 then "00" ++ toString n
  else if n < 1000 then "0" ++ toString n
  else toString n

/-- Modelled from the spec: `TrackMetadata::formatDate` renders a
calendar date in ISO 8601 form yyyy-MM-dd (class `TrackMetadata` is not
part of the sources). -/
def formatDateISO (y m d : Nat) : String :=
  pad4 y ++ "-" ++ pad2 m ++ "-" ++ pad2 d

/-! ## ID3v2 import -/

/-- The year block of `importTrackMetadataFromID3v2Tag`
(`trackmetadatataglib.cpp:984`): prefer a non-empty TDRC on tags of
major version at least 4, otherwise assemble TYER + TDAT, falling back
to the trimmed bare TYER text; only a non-empty result is stored. -/
def importID3v2Year (md : TrackMetadata) (tag : ID3v2Tag) : TrackMetadata :=
  let recordingTime := toQStringFirstNotEmpty tag.tdrc
  if 4 ≤ tag.majorVersion ∧ recordingTime ≠ "" then
    { md with year := recordingTime }
  else
    let recordingYear := qStringTrimmed (toQStringFirstNotEmpty tag.tyer)
    let year :=
      if recordingYear.length = 4 then
        let recordingDate := qStringTrimmed (toQStringFirstNotEmpty tag.tdat)
        if recordingDate.length = 4 then
          match qDateFromStringTYERTDAT (recordingYear ++ recordingDate) with
          | some (y, m, d) => formatDateISO y m d
          | none => recordingYear
        else recordingYear
      else recordingYear
    if year ≠ "" then { md with year := year } else md

/-- The TBPM block of `importTrackMetadataFromID3v2Tag`
(`trackmetadatataglib.cpp:1024`): parse the first non-empty TBPM text,
then divide the stored value by 10 while it exceeds `kValueMax`, log
when the correction changed the value, and store the corrected value.
The returned flag reports whether the correction was logged. -/
def importID3v2Bpm (kValueMax : Rat) (md : TrackMetadata) (tag : ID3v2Tag) :
    TrackMetadata × Bool :=
  if tag.tbpm ≠ [] then
    let md1 := (parseBpm md (toQStringFirstNotEmpty tag.tbpm)).1
    let bpmValueOriginal := md1.bpm
    let bpmValue := correctBpmValue bpmValueOriginal kValueMax
    ({ md1 with bpm := bpmValue }, bpmValue ≠ bpmValueOriginal)
  else (md, false)

/-- The comment block of `importTrackMetadataFromID3v2Tag`
(`trackmetadatataglib.cpp:941`): the first COMM frame with empty
description, else the compatibility TXXX frame labeled "COMMENT" whose
second field holds the value. -/
def id3v2CommentStep (md : TrackMetadata) (tag : ID3v2Tag) : TrackMetadata :=
  match findFirstCommentsFrame tag "" with
  | some f => { md with comment := f.text }
  | none =>
    match findFirstUserTextFrame tag "COMMENT" with
    | some f => { md with comment := f.fieldList.getD 1 "" }
    | none => md

/-- The TPE2 block (`trackmetadatataglib.cpp:963`). -/
def id3v2AlbumArtistStep (md : TrackMetadata) (tag : ID3v2Tag) : TrackMetadata :=
  if tag.tpe2 ≠ [] then
    { md with albumArtist := toQStringFirstNotEmpty tag.tpe2 } else md

/-- The TOAL fallback block (`trackmetadatataglib.cpp:968`): only taken
when the album is still empty. -/
def id3v2OriginalAlbumStep (md : TrackMetadata) (tag : ID3v2Tag) : TrackMetadata :=
  if md.album = "" then
    { md with album := toQStringFirstNotEmpty tag.toal } else md

/-- The TCOM block (`trackmetadatataglib.cpp:974`). -/
def id3v2ComposerStep (md : TrackMetadata) (tag : ID3v2Tag) : TrackMetadata :=
  if tag.tcom ≠ [] then
    { md with composer := toQStringFirstNotEmpty tag.tcom } else md

/-- The TIT1 block (`trackmetadatataglib.cpp:979`). -/
def id3v2GroupingStep (md : TrackMetadata) (tag : ID3v2Tag) : TrackMetadata :=
  if tag.tit1 ≠ [] then
    { md with grouping := toQStringFirstNotEmpty tag.tit1 } else md

/-- The TRCK block (`trackmetadatataglib.cpp:1012`). -/
def id3v2TrackNumberStep (md : TrackMetadata) (tag : ID3v2Tag) : TrackMetadata :=
  if tag.trck ≠ [] then
    let split := splitTrackNumberString (toQStringFirstNotEmpty tag.trck)
    { md with trackNumber := split.1, trackTotal := split.2 }
  else md

/-- The TKEY block (`trackmetadatataglib.cpp:1041`). -/
def id3v2KeyStep (md : TrackMetadata) (tag : ID3v2Tag) : TrackMetadata :=
  if tag.tkey ≠ [] then
    { md with key := toQStringFirstNotEmpty tag.tkey } else md

/-- The REPLAYGAIN_TRACK_GAIN block (`trackmetadatataglib.cpp:1047`):
the value is the second entry of the frame's field list. -/
def id3v2TrackGainStep (md : TrackMetadata) (tag : ID3v2Tag) : TrackMetadata :=
  match findFirstUserTextFrame tag "REPLAYGAIN_TRACK_GAIN" with
  | some f =>
    if 2 ≤ f.fieldList.length then
      (parseTrackGain md (f.fieldList.getD 1 "")).1
    else md
  | none => md

/-- The REPLAYGAIN_TRACK_PEAK block (`trackmetadatataglib.cpp:1054`). -/
def id3v2TrackPeakStep (md : TrackMetadata) (tag : ID3v2Tag) : TrackMetadata :=
  match findFirstUserTextFrame tag "REPLAYGAIN_TRACK_PEAK" with
  | some f =>
    if 2 ≤ f.fieldList.length then
      (parseTrackPeak md (f.fieldList.getD 1 "")).1
    else md
  | none => md

/-- Embeds `importTrackMetadataFromID3v2Tag`
(`trackmetadatataglib.cpp:933`) as the sequence of its blocks.
`kValueMax` is the maximum plausible BPM (`Bpm::kValueMax`, a constant
not part of the sources). The second component reports whether the BPM
scale correction was logged. -/
def importTrackMetadataFromID3v2Tag (kValueMax : Rat) (md0 : TrackMetadata)
    (tag : ID3v2Tag) : TrackMetadata × Bool :=
  let md := importTrackMetadataFromTag md0 tag.generic
  let md := id3v2CommentStep md tag
  let md := id3v2AlbumArtistStep md tag
  let md := id3v2OriginalAlbumStep md tag
  let md := id3v2ComposerStep md tag
  let md := id3v2GroupingStep md tag
  let md := importID3v2Year md tag
  let md := id3v2TrackNumberStep md tag
  let mdBpm := importID3v2Bpm kValueMax md tag
  let md := id3v2KeyStep mdBpm.1 tag
  let md := id3v2TrackGainStep md tag
  let md := id3v2TrackPeakStep md tag
  (md, mdBpm.2)

/-- Concrete tag for the BPM scale-correction example: a single TBPM
frame holding "1452". -/
def tbpm1452Tag : ID3v2Tag := { tbpm := ["1452"] }

/-- Concrete tag for the year-fallback example: an ID3v2.3 tag with
TYER "1999" and no TDAT. -/
def tyer1999Tag : ID3v2Tag := { header := some 3, tyer := ["1999"] }

/-- Concrete tag for the year-composition example: an ID3v2.3 tag with
TYER "1999" and TDAT "0106". -/
def tyerTdatTag : ID3v2Tag :=
  { header := some 3, tyer := ["1999"], tdat := ["0106"] }

/-- Concrete tag for the replay-gain example: a single TXXX frame
describing REPLAYGAIN_TRACK_GAIN with value "0 dB". -/
def zeroDbGainTag : ID3v2Tag :=
  { txxx := [{ description := "REPLAYGAIN_TRACK_GAIN", values := ["0 dB"] }] }


/-! ## Export formatting helpers -/

/-- Modelled from the spec: `Bpm::valueToString` renders the BPM as a
free decimal string, empty when no valid BPM is set (undefined is 0). -/
def formatBpm (md : TrackMetadata) : String :=
  if md.bpm ≤ 0 then "" else toString md.bpm

/-- Modelled from the spec: `Bpm::valueToInteger` rounds the BPM to the
nearest integer; `formatBpmInteger` renders it
(`trackmetadatataglib.cpp:213`). -/
def formatBpmInteger (md : TrackMetadata) : String :=
  toString (round md.bpm)

/-- Modelled from the spec: `ReplayGain::ratioToString` renders a
defined ratio as its dB text and the undefined sentinel as the empty
string. -/
def formatTrackGain (md : TrackMetadata) : String :=
  match md.replayGain with
  | RGRatio.undefined => ""
  | RGRatio.fromDb q => toString q ++ " dB"

/-- Modelled from the spec: `ReplayGain::peakToString` renders the peak,
empty when no peak is set. -/
def formatTrackPeak (md : TrackMetadata) : String :=
  match md.replayGainPeak with
  | none => ""
  | some p => toString p

/-- `QDate` parse of an ISO 8601 date yyyy-MM-dd, used by
`TrackMetadata::parseDate` (modelled from the spec). Returns year,
month, day. -/
def parseDateISO (s : String) : Option (Nat × Nat × Nat) :=
  match s.toList with
  | [y1, y2, y3, y4, '-', m1, m2, '-', d1, d2] =>
    match parseNatDigits [y1, y2, y3, y4], parseNatDigits [m1, m2],
        parseNatDigits [d1, d2] with
    | some y, some m, some d =>
      if qDateValid y m d then some (y, m, d) else none
    | _, _, _ => none
  | _ => none

/-- Modelled from the spec: `TrackMetadata::formatCalendarYear` extracts
the leading four-digit calendar year of a date text, failing when there
is none. -/
def formatCalendarYear (s : String) : Option String :=
  match s.toList.take 4 with
  | [c1, c2, c3, c4] =>
    match parseNatDigits [c1, c2, c3, c4] with
    | some y => if y ≠ 0 then some (pad4 y) else none
    | none => none
  | _ => none

/-! ## ID3v2 frame write primitives and export -/

/-- Effect of `pTag->removeFrames(id)` on one frame list. -/
def removeID3v2Frames (_frames : List String) : List String := []

/-- Embeds `writeID3v2TextIdentificationFrame`
(`trackmetadatataglib.cpp:480`) as its effect on the frame list of the
given frame ID: all existing frames are removed, then a single new
frame is added when the text is non-empty. -/
def writeID3v2TextFrameList (text : String) (frames : List String) :
    List String :=
  let removed := removeID3v2Frames frames
  if text = "" then removed else removed ++ [text]

/-- The read counterpart used by the ID3v2 import blocks: a frame list
is consulted only when non-empty, yielding its first non-empty text. -/
def readID3v2TextFrameList (frames : List String) : Option String :=
  if frames = [] then none else some (toQStringFirstNotEmpty frames)

/-- Replaces the first occurrence of an element in a list (models the
in-place mutation of the frame object found by the lookup). -/
def listReplaceFirst {α : Type} [DecidableEq α] :
    List α → α → α → List α
  | [], _, _ => []
  | x :: xs, old, new =>
    if x = old then new :: xs else x :: listReplaceFirst xs old new

/-- Embeds `removeUserTextIdentificationFrames`
(`trackmetadatataglib.cpp:444`): deletes every TXXX frame whose
description matches case-insensitively. -/
def removeUserTextFramesList (description : String)
    (frames : List ID3v2UserTextFrame) : List ID3v2UserTextFrame :=
  frames.filter (fun f => ¬ qStringCaseInsensitiveEq f.description description)

/-- Embeds `writeID3v2CommentsFrame` (`trackmetadatataglib.cpp:503`)
without its trailing TXXX cleanup: modify or purge the first matching
frame, else add a new frame when the text is non-empty. -/
def writeID3v2CommentsFrameList (text description : String)
    (frames : List ID3v2CommentsFrame) : List ID3v2CommentsFrame :=
  match findFirstCommentsFrameAux description none frames with
  | some f =>
    if text = "" then frames.erase f
    else listReplaceFirst frames f { description := description, text := text }
  | none =>
    if text = "" then frames
    else frames ++ [{ description := description, text := text }]

/-- Embeds `writeID3v2UserTextIdentificationFrame`
(`trackmetadatataglib.cpp:545`): modify or purge the first matching
TXXX frame, else add a new frame when the text is non-empty. -/
def writeID3v2UserTextFrameList (text description : String)
    (frames : List ID3v2UserTextFrame) : List ID3v2UserTextFrame :=
  match findFirstUserTextFrameAux description none frames with
  | some f =>
    if text = "" then frames.erase f
    else listReplaceFirst frames f { description := description, values := [text] }
  | none =>
    if text = "" then frames
    else frames ++ [{ description := description, values := [text] }]

/-- Embeds `exportTrackMetadataIntoID3v2Tag`
(`trackmetadatataglib.cpp:1356`): exports nothing and reports failure
when the tag header is missing or its major version is below 3;
otherwise writes the generic fields (comment, year and track number
omitted from the generic path), the comment frame with TXXX COMMENT
cleanup, TRCK, the version-dependent year frames, TPE2, TCOM, TIT1, the
integer TBPM, TKEY and the two replay-gain TXXX frames. -/
def exportTrackMetadataIntoID3v2Tag (tag : ID3v2Tag) (md : TrackMetadata) :
    ID3v2Tag × Bool :=
  match tag.header with
  | none => (tag, false)
  | some ver =>
    if ver < 3 then (tag, false)
    else
      let t := { tag with
        tpe1 := writeID3v2TextFrameList md.artist tag.tpe1
        tit2 := writeID3v2TextFrameList md.title tag.tit2
        talb := writeID3v2TextFrameList md.album tag.talb
        tcon := writeID3v2TextFrameList md.genre tag.tcon }
      let t := { t with
        comm := writeID3v2CommentsFrameList md.comment "" t.comm
        txxx := removeUserTextFramesList "COMMENT" t.txxx }
      let t := { t with trck := (writeID3v2TextFrameList
        (joinTrackNumberStrings md.trackNumber md.trackTotal) t.trck) }
      let t := if 4 ≤ ver ∨ t.tdrc ≠ [] then
          { t with tdrc := writeID3v2TextFrameList md.year t.tdrc } else t
      let t := if ver < 4 then
          match parseDateISO md.year with
          | some (y, m, d) =>
            { t with tyer := (writeID3v2TextFrameList (pad4 y) t.tyer),
                     tdat := (writeID3v2TextFrameList (pad2 d ++ pad2 m) t.tdat) }
          | none =>
            match formatCalendarYear md.year with
            | some cy => { t with tyer := writeID3v2TextFrameList cy t.tyer }
            | none => t
        else t
      let t := { t with tpe2 := writeID3v2TextFrameList md.albumArtist t.tpe2 }
      let t := { t with tcom := writeID3v2TextFrameList md.composer t.tcom }
      let t := { t with tit1 := writeID3v2TextFrameList md.grouping t.tit1 }
      let t := { t with tbpm := writeID3v2TextFrameList (formatBpmInteger md) t.tbpm }
      let t := { t with tkey := writeID3v2TextFrameList md.key t.tkey }
      let t := { t with txxx := (writeID3v2UserTextFrameList
        (formatTrackGain md) "REPLAYGAIN_TRACK_GAIN" t.txxx) }
      let t := { t with txxx := (writeID3v2UserTextFrameList
        (formatTrackPeak md) "REPLAYGAIN_TRACK_PEAK" t.txxx) }
      (t, true)

/-- A tag whose version header cannot be parsed. -/
def noHeaderTag : ID3v2Tag := { header := none }

/-- An ID3v2.2 tag (major version below 3). -/
def version2Tag : ID3v2Tag := { header := some 2 }

/-! ## APE, Vorbis Comment and MP4 field maps -/

/-- Point update of a string-list-valued key map. -/
def updateStringListFun (f : String → List String) (key : String)
    (v : List String) : String → List String :=
  fun k => if k = key then v else f k

/-- An APE tag as its item map (`TagLib::APE::Tag::itemListMap`); an
absent item is the empty value list, which is how `readAPEItem`
observes absence. -/
structure APETag where
  items : String → List String

/-- Embeds `readAPEItem` (`trackmetadatataglib.cpp:618`): an item is
read only when present with a non-empty value list; the value is the
first non-empty entry. -/
def readAPEItem (tag : APETag) (key : String) : Option String :=
  if tag.items key = [] then none
  else some (toQStringFirstNotEmpty (tag.items key))

/-- Embeds `writeAPEItem` (`trackmetadatataglib.cpp:634`): an empty
value purges the item, a non-empty value replaces it. -/
def writeAPEItem (tag : APETag) (key : String) (value : String) : APETag :=
  if value = "" then { items := updateStringListFun tag.items key [] }
  else { items := updateStringListFun tag.items key [value] }

/-- A Vorbis comment as its field map
(`TagLib::Ogg::XiphComment::fieldListMap`); an absent field is the
empty list, which is how `readXiphCommentField` observes absence. -/
structure XiphComment where
  fields : String → List String

/-- Embeds `readXiphCommentField` (`trackmetadatataglib.cpp:647`). -/
def readXiphCommentField (tag : XiphComment) (key : String) : Option String :=
  if tag.fields key = [] then none
  else some (toQStringFirstNotEmpty (tag.fields key))

/-- Embeds `writeXiphCommentField` (`trackmetadatataglib.cpp:664`):
unconditional write, purging on empty. -/
def writeXiphCommentField (tag : XiphComment) (key : String)
    (value : String) : XiphComment :=
  if value = "" then { fields := updateStringListFun tag.fields key [] }
  else { fields := updateStringListFun tag.fields key [value] }

/-- Embeds `updateXiphCommentField` (`trackmetadatataglib.cpp:678`):
write only when the field already exists. -/
def updateXiphCommentField (tag : XiphComment) (key : String)
    (value : String) : XiphComment :=
  if (readXiphCommentField tag key).isSome then
    writeXiphCommentField tag key value
  else tag

/-- An MP4 tag restricted to its text atoms
(`TagLib::MP4::Tag::itemListMap`). -/
structure MP4Tag where
  atoms : String → List String

/-- Embeds `readMP4Atom` (`trackmetadatataglib.cpp:578`). -/
def readMP4Atom (tag : MP4Tag) (key : String) : Option String :=
  if tag.atoms key = [] then none
  else some (toQStringFirstNotEmpty (tag.atoms key))

/-- Embeds `writeMP4Atom` (`trackmetadatataglib.cpp:595`):
unconditional write, purging on empty. -/
def writeMP4Atom (tag : MP4Tag) (key : String) (value : String) : MP4Tag :=
  if value = "" then { atoms := updateStringListFun tag.atoms key [] }
  else { atoms := updateStringListFun tag.atoms key [value] }

/-- Embeds `exportTrackMetadataIntoXiphComment`
(`trackmetadatataglib.cpp:1476`): generic fields (here the TagLib
setters for ARTIST, TITLE, ALBUM, GENRE and the comment field
DESCRIPTION; year and track number omitted), then the unambiguous
fields, then the recommended/alternative dual writes. -/
def exportTrackMetadataIntoXiphComment (tag : XiphComment)
    (md : TrackMetadata) : XiphComment × Bool :=
  let t := writeXiphCommentField tag "ARTIST" md.artist
  let t := writeXiphCommentField t "TITLE" md.title
  let t := writeXiphCommentField t "ALBUM" md.album
  let t := writeXiphCommentField t "GENRE" md.genre
  let t := writeXiphCommentField t "DESCRIPTION" md.comment
  let t := writeXiphCommentField t "DATE" md.year
  let t := writeXiphCommentField t "COMPOSER" md.composer
  let t := writeXiphCommentField t "GROUPING" md.grouping
  let t := writeXiphCommentField t "TRACKNUMBER" md.trackNumber
  let t := writeXiphCommentField t "REPLAYGAIN_TRACK_GAIN" (formatTrackGain md)
  let t := writeXiphCommentField t "REPLAYGAIN_TRACK_PEAK" (formatTrackPeak md)
  let t := writeXiphCommentField t "TRACKTOTAL" md.trackTotal
  let t := updateXiphCommentField t "TOTALTRACKS" md.trackTotal
  let t := writeXiphCommentField t "ALBUMARTIST" md.albumArtist
  let t := updateXiphCommentField t "ALBUM_ARTIST" md.albumArtist
  let t := updateXiphCommentField t "ALBUM ARTIST" md.albumArtist
  let t := updateXiphCommentField t "ENSEMBLE" md.albumArtist
  let t := writeXiphCommentField t "TEMPO" (formatBpm md)
  let t := updateXiphCommentField t "BPM" (formatBpm md)
  let t := writeXiphCommentField t "INITIALKEY" md.key
  let t := updateXiphCommentField t "KEY" md.key
  (t, true)

/-- An APE tag with no items. -/
def emptyAPETag : APETag := { items := fun _ => [] }

/-- A Vorbis comment with no fields. -/
def emptyXiphComment : XiphComment := { fields := fun _ => [] }

/-- A Vorbis comment that already carries every alternative field. -/
def allAltXiphComment : XiphComment :=
  { fields := fun k =>
      if k = "TOTALTRACKS" ∨ k = "ALBUM_ARTIST" ∨ k = "ALBUM ARTIST" ∨
          k = "ENSEMBLE" ∨ k = "BPM" ∨ k = "KEY" then ["old"] else [] }

/-- An MP4 tag with no atoms. -/
def emptyMP4Tag : MP4Tag := { atoms := fun _ => [] }


/-! ## Cover art extraction -/

/-- An embedded picture as the adapter observes it: its declared type
code and the result of handing its raw bytes to the external image
decoder (`QImage::fromData`); `none` models a picture that fails to
decode. Type codes follow the shared ID3v2/FLAC numbering:
Other = 0, FrontCover = 3, Media = 6, Illustration = 18. -/
structure TagPicture where
  pictype : Nat
  decoded : Option Nat
deriving DecidableEq, Repr

/-- The preferred picture types for cover art sorted by priority
(`kPreferredID3v2PictureTypes`, `trackmetadatataglib.cpp:135`):
FrontCover, Media, Illustration, Other. -/
def kPreferredID3v2PictureTypes : List Nat := [3, 6, 18, 0]

/-- The preferred picture types for cover art sorted by priority
(`kPreferredVorbisCommentPictureTypes`, `trackmetadatataglib.cpp:141`):
FrontCover, Media, Illustration, Other. -/
def kPreferredVorbisCommentPictureTypes : List Nat := [3, 6, 18, 0]

/-- The inner loop shared by the cover-art importers: scan the list for
a picture of the given type and return the first that decodes; a decode
failure is non-fatal and scanning continues. -/
def scanPicturesForType (t : Nat) : List TagPicture → Option Nat
  | [] => none
  | p :: rest =>
    if p.pictype = t then
      match p.decoded with
      | some img => some img
      | none => scanPicturesForType t rest
    else scanPicturesForType t rest

/-- The fallback loop: return the first picture of any type that
decodes. -/
def scanPicturesAny : List TagPicture → Option Nat
  | [] => none
  | p :: rest =>
    match p.decoded with
    | some img => some img
    | none => scanPicturesAny rest

/-- The outer loop over the preferred types in priority order. -/
def scanPreferredTypes : List Nat → List TagPicture → Option Nat
  | [], _ => none
  | t :: ts, pics =>
    match scanPicturesForType t pics with
    | some img => some img
    | none => scanPreferredTypes ts pics

/-- Embeds `importCoverImageFromVorbisCommentPictureList`
(`trackmetadatataglib.cpp:710`): for each preferred type in priority
order return the first successfully decoded picture of that type; when
no typed match decodes, fall back to the first decodable picture of the
whole list in original order. -/
def importCoverImageFromVorbisCommentPictureList
    (pictures : List TagPicture) : Option Nat :=
  if pictures.isEmpty then none
  else
    match scanPreferredTypes kPreferredVorbisCommentPictureTypes pictures with
    | some img => some img
    | none => scanPicturesAny pictures

/-- Embeds `importCoverImageFromID3v2Tag`
(`trackmetadatataglib.cpp:748`) on the tag's APIC frame list: same
algorithm, but the caller's cover art is only overwritten on success. -/
def importCoverImageFromID3v2Frames (coverArt : Option Nat)
    (apicFrames : List TagPicture) : Option Nat :=
  if apicFrames.isEmpty then coverArt
  else
    match scanPreferredTypes kPreferredID3v2PictureTypes apicFrames with
    | some img => some img
    | none =>
      match scanPicturesAny apicFrames with
      | some img => some img
      | none => coverArt

/-- The picture list reordered by type priority, followed by the whole
list: the specification-level description of the scan order. -/
def priorityReordered (pics : List TagPicture) : List TagPicture :=
  (kPreferredVorbisCommentPictureTypes.map
    (fun t => pics.filter (fun p => p.pictype = t))).join ++ pics

/-- A decodable Illustration picture. -/
def illustrationPic : TagPicture := { pictype := 18, decoded := some 1 }

/-- A decodable FrontCover picture. -/
def frontCoverPic : TagPicture := { pictype := 3, decoded := some 2 }

/-- A FrontCover picture whose data fails to decode. -/
def badFrontCoverPic : TagPicture := { pictype := 3, decoded := none }


/-! ## The Serato beatgrid (src/track/serato/beatgrid.h) -/

/-- A C++ `std::shared_ptr` to a marker object: the managed address and
the pointed-to value. `operator==` on shared pointers compares the
stored addresses, not the pointed-to values. -/
structure SharedPtr (α : Type) where
  addr : Nat
  val : α
deriving DecidableEq, Repr

/-- `SeratoBeatGridNonTerminalMarker` (beatgrid.h:22): a position (the
32-bit float carried verbatim as its bit pattern, since the codec only
serializes it) and the number of beats until the next marker. -/
structure SeratoBeatGridNonTerminalMarker where
  positionSecs : Nat
  beatsTillNextMarker : Nat
deriving DecidableEq, Repr

/-- `SeratoBeatGridTerminalMarker` (beatgrid.h:52): a position and a
tempo, both 32-bit values carried verbatim. -/
structure SeratoBeatGridTerminalMarker where
  positionSecs : Nat
  bpm : Nat
deriving DecidableEq, Repr

/-- `SeratoBeatGrid` (beatgrid.h:88): an optional shared pointer to the
terminal marker, a list of shared pointers to the non-terminal markers,
and the opaque footer byte. -/
structure SeratoBeatGrid where
  pTerminalMarker : Option (SharedPtr SeratoBeatGridTerminalMarker)
  nonTerminalMarkers : List (SharedPtr SeratoBeatGridNonTerminalMarker)
  footer : Nat
deriving DecidableEq, Repr

/-- `shared_ptr` equality: the stored pointers are compared. -/
def sharedPtrBeq {α : Type} (p q : SharedPtr α) : Bool :=
  p.addr == q.addr

/-- Equality of two possibly-null shared pointers. -/
def optionPtrBeq {α : Type} :
    Option (SharedPtr α) → Option (SharedPtr α) → Bool
  | none, none => true
  | some p, some q => sharedPtrBeq p q
  | _, _ => false

/-- Element-wise `QList` equality of shared-pointer lists. -/
def listPtrBeq {α : Type} :
    List (SharedPtr α) → List (SharedPtr α) → Bool
  | [], [] => true
  | p :: ps, q :: qs => sharedPtrBeq p q && listPtrBeq ps qs
  | _, _ => false

/-- Embeds `operator==(const SeratoBeatGrid&, const SeratoBeatGrid&)`
(beatgrid.h:157): compares the terminal-marker pointer and the
non-terminal pointer list; the footer byte does not participate. -/
def seratoBeatGridEq (lhs rhs : SeratoBeatGrid) : Bool :=
  optionPtrBeq lhs.pTerminalMarker rhs.pTerminalMarker &&
    listPtrBeq lhs.nonTerminalMarkers rhs.nonTerminalMarkers

/-- Value-level equality of two grids: same marker values in the same
order and the same footer byte, ignoring object identity. This is the
equality the codec round-trip preserves. -/
def seratoBeatGridValueEq (g1 g2 : SeratoBeatGrid) : Prop :=
  g1.nonTerminalMarkers.map (fun p => p.val) =
    g2.nonTerminalMarkers.map (fun p => p.val) ∧
  g1.pTerminalMarker.map (fun p => p.val) =
    g2.pTerminalMarker.map (fun p => p.val) ∧
  g1.footer = g2.footer

/-! ## The beatgrid binary codec

The implementation (`beatgrid.cpp`) is not among the sources; the codec
below is modelled from the spec: a versioned binary blob holding the
marker count, the non-terminal markers (each a 32-bit position and a
32-bit beat count), the terminal marker last (a 32-bit position and a
32-bit tempo), and a trailing opaque footer byte preserved verbatim;
containers with binary frames store the raw bytes, containers
restricted to text fields wrap the same bytes in base64. -/

/-- Big-endian serialization of a 32-bit value. -/
def u32BE (n : Nat) : List Nat :=
  [n / 2 ^ 24 % 256, n / 2 ^ 16 % 256, n / 2 ^ 8 % 256, n % 256]

/-- Big-endian deserialization of a 32-bit value. -/
def u32FromBE (b0 b1 b2 b3 : Nat) : Nat :=
  b0 * 2 ^ 24 + b1 * 2 ^ 16 + b2 * 2 ^ 8 + b3

/-- Modelled from the spec: serialization of one non-terminal marker -
position then beat count. -/
def dumpNonTerminalMarkerID3 (m : SeratoBeatGridNonTerminalMarker) :
    List Nat :=
  u32BE m.positionSecs ++ u32BE m.beatsTillNextMarker

/-- Modelled from the spec: serialization of the terminal marker -
position then tempo. -/
def dumpTerminalMarkerID3 (m : SeratoBeatGridTerminalMarker) : List Nat :=
  u32BE m.positionSecs ++ u32BE m.bpm

/-- Modelled from the spec: `SeratoBeatGrid::dumpID3` - a two-byte
version header, the 32-bit marker count, the non-terminal markers in
order, the terminal marker last, and the footer byte. -/
def SeratoBeatGrid.dumpID3 (g : SeratoBeatGrid) : List Nat :=
  let count := g.nonTerminalMarkers.length +
    (if g.pTerminalMarker.isSome then 1 else 0)
  [1, 0] ++ u32BE count ++
    (g.nonTerminalMarkers.map (fun p => dumpNonTerminalMarkerID3 p.val)).join ++
    (match g.pTerminalMarker with
     | some p => dumpTerminalMarkerID3 p.val
     | none => []) ++
    [g.footer]

/-- Modelled from the spec: parsing of the given number of non-terminal
markers, eight bytes each; fails on truncation. Freshly parsed marker
objects are allocated at address 0. -/
def parseNonTerminalMarkersID3 :
    Nat → List Nat →
      Option (List (SharedPtr SeratoBeatGridNonTerminalMarker) × List Nat)
  | 0, bytes => some ([], bytes)
  | n + 1, b0 :: b1 :: b2 :: b3 :: c0 :: c1 :: c2 :: c3 :: rest =>
    (parseNonTerminalMarkersID3 n rest).map
      (fun pr =>
        (⟨0, ⟨u32FromBE b0 b1 b2 b3, u32FromBE c0 c1 c2 c3⟩⟩ :: pr.1, pr.2))
  | _ + 1, _ => none

/-- Modelled from the spec: `SeratoBeatGrid::parseID3` - checks the
version header, reads the count, parses all but the last marker as
non-terminal and the last as terminal, and requires exactly one
trailing footer byte; any truncated or structurally inconsistent input
fails. -/
def SeratoBeatGrid.parseID3 (data : List Nat) : Option SeratoBeatGrid :=
  match data with
  | 1 :: 0 :: b0 :: b1 :: b2 :: b3 :: rest =>
    let count := u32FromBE b0 b1 b2 b3
    if count = 0 then
      match rest with
      | [footerByte] => some ⟨none, [], footerByte⟩
      | _ => none
    else
      match parseNonTerminalMarkersID3 (count - 1) rest with
      | some (markers, p0 :: p1 :: p2 :: p3 :: q0 :: q1 :: q2 :: q3 ::
          [footerByte]) =>
        some ⟨some ⟨0, ⟨u32FromBE p0 p1 p2 p3, u32FromBE q0 q1 q2 q3⟩⟩,
          markers, footerByte⟩
      | _ => none
  | _ => none

/-- A sextet rendered as its base64 alphabet character code. -/
def b64EncChar (n : Nat) : Nat :=
  if n < 26 then 65 + n
  else if n < 52 then 97 + (n - 26)
  else if n < 62 then 48 + (n - 52)
  else if n = 62 then 43
  else 47

/-- The inverse base64 alphabet: character code back to sextet. -/
def b64DecChar (c : Nat) : Option Nat :=
  if 65 ≤ c ∧ c ≤ 90 then some (c - 65)
  else if 97 ≤ c ∧ c ≤ 122 then some (c - 71)
  else if 48 ≤ c ∧ c ≤ 57 then some (c + 4)
  else if c = 43 then some 62
  else if c = 47 then some 63
  else none

/-- Standard base64 encoding of a byte list (61 is the padding
character "="). -/
def b64Encode : List Nat → List Nat
  | [] => []
  | [a] => [b64EncChar (a / 4), b64EncChar (a % 4 * 16), 61, 61]
  | [a, b] => [b64EncChar (a / 4), b64EncChar (a % 4 * 16 + b / 16),
      b64EncChar (b % 16 * 4), 61]
  | a :: b :: c :: rest =>
    b64EncChar (a / 4) :: b64EncChar (a % 4 * 16 + b / 16) ::
      b64EncChar (b % 16 * 4 + c / 64) :: b64EncChar (c % 64) ::
      b64Encode rest

/-- Standard base64 decoding; fails on characters outside the alphabet,
misplaced padding or a length that is not a multiple of four. -/
def b64Decode : List Nat → Option (List Nat)
  | [] => some []
  | c1 :: c2 :: c3 :: c4 :: rest =>
    match b64DecChar c1, b64DecChar c2 with
    | some s1, some s2 =>
      if c3 = 61 ∧ c4 = 61 ∧ rest = [] then
        if s2 % 16 = 0 then some [s1 * 4 + s2 / 16] else none
      else if c4 = 61 ∧ rest = [] then
        match b64DecChar c3 with
        | some s3 =>
          if s3 % 4 = 0 then
            some [s1 * 4 + s2 / 16, s2 % 16 * 16 + s3 / 4]
          else none
        | none => none
      else
        match b64DecChar c3, b64DecChar c4, b64Decode rest with
        | some s3, some s4, some ds =>
          some ((s1 * 4 + s2 / 16) :: (s2 % 16 * 16 + s3 / 4) ::
            (s3 % 4 * 64 + s4) :: ds)
        | _, _, _ => none
    | _, _ => none
  | _ => none

/-- The container families distinguished by `getFileTypeFromFileName`
(`trackmetadatataglib.cpp:50`). -/
inductive FileType where
  | MP3 | MP4 | FLAC | OGG | OPUS | WAV | WV | AIFF | UNKNOWN
deriving DecidableEq, Repr

/-- Modelled from the spec: container families that store arbitrary
binary frames take the raw byte encoding; families restricted to text
fields take the base64 wrapping. -/
def fileTypeUsesBase64 : FileType → Bool
  | FileType.MP4 => true
  | FileType.FLAC => true
  | FileType.OGG => true
  | FileType.OPUS => true
  | _ => false

/-- Modelled from the spec: `SeratoBeatGrid::dump` (beatgrid.h:112) -
the byte layout of `dumpID3`, base64-wrapped for text-only container
families. -/
def SeratoBeatGrid.dump (g : SeratoBeatGrid) (fileType : FileType) :
    List Nat :=
  if fileTypeUsesBase64 fileType then b64Encode g.dumpID3 else g.dumpID3

/-- Modelled from the spec: `SeratoBeatGrid::parse` (beatgrid.h:103) -
the inverse of `dump` for the same container family; failure never
produces a partial marker set. -/
def SeratoBeatGrid.parse (data : List Nat) (fileType : FileType) :
    Option SeratoBeatGrid :=
  if fileTypeUsesBase64 fileType then
    match b64Decode data with
    | some raw => SeratoBeatGrid.parseID3 raw
    | none => none
  else SeratoBeatGrid.parseID3 data

/-- Well-formedness of a marker set as the data shapes of beatgrid.h
require: every field fits its 32-bit wire slot, the footer is one byte,
the marker count fits the 32-bit count slot, and a grid with markers
has its terminal marker (the spec: the terminal marker logically
terminates the grid). -/
def SeratoBeatGrid.wellFormed (g : SeratoBeatGrid) : Prop :=
  (∀ p ∈ g.nonTerminalMarkers,
    p.val.positionSecs < 2 ^ 32 ∧ p.val.beatsTillNextMarker < 2 ^ 32) ∧
  (∀ p, g.pTerminalMarker = some p →
    p.val.positionSecs < 2 ^ 32 ∧ p.val.bpm < 2 ^ 32) ∧
  g.footer < 256 ∧
  (g.pTerminalMarker = none → g.nonTerminalMarkers = []) ∧
  g.nonTerminalMarkers.length + 1 < 2 ^ 32

/-- An example grid: one non-terminal marker and a terminal marker. -/
def exampleBeatGrid : SeratoBeatGrid :=
  { pTerminalMarker := some ⟨7, ⟨1077936128, 1124073472⟩⟩,
    nonTerminalMarkers := [⟨5, ⟨0, 16⟩⟩],
    footer := 42 }

/-! ## Theorems -/

theorem divTenFuel_spec (maxValue : Rat) :
    ∀ (n : Nat) (v : Rat), v / 10 ^ n ≤ maxValue →
      ∃ k, k ≤ n ∧ divTenFuel maxValue n v = v / 10 ^ k ∧
        v / 10 ^ k ≤ maxValue ∧ ∀ j < k, maxValue < v / 10 ^ j := by
  intro n
  induction n with
  | zero =>
    intro v h
    exact ⟨0, Nat.le_refl 0, by simp [divTenFuel], by simpa using h,
      by omega⟩
  | succ n ih =>
    intro v h
    by_cases hv : maxValue < v
    · have h10 : v / 10 / 10 ^ n = v / 10 ^ (n + 1) := by
        rw [div_div, ← pow_succ']
      obtain ⟨k, hk, heq, hle, hlt⟩ := ih (v / 10) (by rw [h10]; exact h)
      refine ⟨k + 1, by omega, ?_, ?_, ?_⟩
      · rw [show divTenFuel maxValue (n + 1) v
            = divTenFuel maxValue n (v / 10) from by
              simp [divTenFuel, hv], heq, div_div, ← pow_succ']
      · rw [show v / 10 ^ (k + 1) = v / 10 / 10 ^ k from by
          rw [div_div, ← pow_succ']]
        exact hle
      · intro j hj
        cases j with
        | zero => simpa using hv
        | succ i =>
          have hi := hlt i (by omega)
          rw [div_div, ← pow_succ'] at hi
          exact hi
    · refine ⟨0, by omega, ?_, by simpa using not_lt.mp hv, by omega⟩
      simp [divTenFuel, hv]

theorem bpmWhileFuel_sufficient (v maxValue : Rat) (hmax : 0 < maxValue) :
    v / 10 ^ bpmWhileFuel v maxValue ≤ maxValue := by
  have hpow : (0 : Rat) < 10 ^ bpmWhileFuel v maxValue := by positivity
  rw [div_le_iff₀ hpow]
  rcases le_or_lt v 0 with hv | hv
  · calc v ≤ 0 := hv
      _ ≤ maxValue * 10 ^ bpmWhileFuel v maxValue := by positivity
  · have hnum : (0 : Int) < v.num := Rat.num_pos.mpr hv
    have hden1 : (1 : Rat) ≤ (v.den : Rat) := by
      exact_mod_cast Nat.one_le_iff_ne_zero.mpr v.den_nz
    have hva : v ≤ (v.num.natAbs : Rat) := by
      have h2 : v ≤ (v.num : Rat) := by
        conv_lhs => rw [← Rat.num_div_den v]
        exact div_le_self (by exact_mod_cast hnum.le) hden1
      have h3 : (v.num : Rat) = (v.num.natAbs : Rat) := by
        push_cast [Int.cast_natAbs]
        exact (abs_of_nonneg (show (0 : Rat) ≤ (v.num : Rat) by
          exact_mod_cast hnum.le)).symm
      rw [← h3]
      exact h2
    have hdpos : (0 : Rat) < (maxValue.den : Rat) := by
      exact_mod_cast maxValue.den_pos
    have hmaxden : (1 : Rat) / (maxValue.den : Rat) ≤ maxValue := by
      have hn1 : (1 : Rat) ≤ (maxValue.num : Rat) := by
        exact_mod_cast Rat.num_pos.mpr hmax
      conv_rhs => rw [← Rat.num_div_den maxValue]
      exact (div_le_div_iff_of_pos_right hdpos).mpr hn1
    have hFle : ((bpmWhileFuel v maxValue : Nat) : Rat) ≤
        10 ^ bpmWhileFuel v maxValue := by
      calc ((bpmWhileFuel v maxValue : Nat) : Rat)
          ≤ 2 ^ bpmWhileFuel v maxValue := by
            exact_mod_cast (Nat.lt_two_pow (bpmWhileFuel v maxValue)).le
        _ ≤ 10 ^ bpmWhileFuel v maxValue :=
            pow_le_pow_left₀ (by norm_num) (by norm_num) _
    calc v ≤ (v.num.natAbs : Rat) := hva
      _ = (1 / (maxValue.den : Rat)) *
          ((bpmWhileFuel v maxValue : Nat) : Rat) := by
        show _ = (1 / (maxValue.den : Rat)) *
          ((v.num.natAbs * maxValue.den : Nat) : Rat)
        push_cast
        field_simp
      _ ≤ maxValue * 10 ^ bpmWhileFuel v maxValue := by
        apply mul_le_mul hmaxden hFle (by positivity) hmax.le

theorem correctBpmValue_spec (v maxValue : Rat) (hmax : 0 < maxValue) :
    ∃ k, correctBpmValue v maxValue = v / 10 ^ k ∧
      v / 10 ^ k ≤ maxValue ∧ ∀ j < k, maxValue < v / 10 ^ j := by
  obtain ⟨k, -, heq, hle, hlt⟩ :=
    divTenFuel_spec maxValue (bpmWhileFuel v maxValue) v
      (bpmWhileFuel_sufficient v maxValue hmax)
  exact ⟨k, heq, hle, hlt⟩

theorem correctBpmValue_eq (v maxValue : Rat) (hmax : 0 < maxValue)
    (k : Nat) (hle : v / 10 ^ k ≤ maxValue)
    (hlt : ∀ j < k, maxValue < v / 10 ^ j) :
    correctBpmValue v maxValue = v / 10 ^ k := by
  obtain ⟨k2, heq, hle2, hlt2⟩ := correctBpmValue_spec v maxValue hmax
  have hkk : k2 = k := by
    by_contra hne
    rcases Nat.lt_or_ge k2 k with h | h
    · exact absurd hle2 (not_le.mpr (hlt k2 h))
    · exact absurd hle (not_le.mpr (hlt2 k (by omega)))
  rw [heq, hkk]

/-! ### Field-preservation lemmas for the ID3v2 import steps -/

@[simp] theorem parseBpm_fst_year (md : TrackMetadata) (s : String) :
    (parseBpm md s).1.year = md.year := by
  cases h : bpmValueFromString s <;> simp [parseBpm, h]

@[simp] theorem parseTrackGain_fst_bpm (md : TrackMetadata) (s : String) :
    (parseTrackGain md s).1.bpm = md.bpm := by
  cases h : ratioFromString s <;> simp [parseTrackGain, h]

@[simp] theorem parseTrackGain_fst_year (md : TrackMetadata) (s : String) :
    (parseTrackGain md s).1.year = md.year := by
  cases h : ratioFromString s <;> simp [parseTrackGain, h]

@[simp] theorem parseTrackPeak_fst_bpm (md : TrackMetadata) (s : String) :
    (parseTrackPeak md s).1.bpm = md.bpm := by
  cases h : peakFromString s <;> simp [parseTrackPeak, h]

@[simp] theorem parseTrackPeak_fst_year (md : TrackMetadata) (s : String) :
    (parseTrackPeak md s).1.year = md.year := by
  cases h : peakFromString s <;> simp [parseTrackPeak, h]

@[simp] theorem parseTrackPeak_fst_replayGain (md : TrackMetadata) (s : String) :
    (parseTrackPeak md s).1.replayGain = md.replayGain := by
  cases h : peakFromString s <;> simp [parseTrackPeak, h]

@[simp] theorem id3v2KeyStep_bpm (md : TrackMetadata) (tag : ID3v2Tag) :
    (id3v2KeyStep md tag).bpm = md.bpm := by
  unfold id3v2KeyStep; split <;> simp

@[simp] theorem id3v2KeyStep_year (md : TrackMetadata) (tag : ID3v2Tag) :
    (id3v2KeyStep md tag).year = md.year := by
  unfold id3v2KeyStep; split <;> simp

@[simp] theorem id3v2KeyStep_replayGain (md : TrackMetadata) (tag : ID3v2Tag) :
    (id3v2KeyStep md tag).replayGain = md.replayGain := by
  unfold id3v2KeyStep; split <;> simp

@[simp] theorem id3v2TrackNumberStep_year (md : TrackMetadata) (tag : ID3v2Tag) :
    (id3v2TrackNumberStep md tag).year = md.year := by
  unfold id3v2TrackNumberStep; split <;> simp

@[simp] theorem id3v2TrackGainStep_bpm (md : TrackMetadata) (tag : ID3v2Tag) :
    (id3v2TrackGainStep md tag).bpm = md.bpm := by
  unfold id3v2TrackGainStep
  rcases findFirstUserTextFrame tag "REPLAYGAIN_TRACK_GAIN" with _ | f <;>
    simp <;> split <;> simp

@[simp] theorem id3v2TrackGainStep_year (md : TrackMetadata) (tag : ID3v2Tag) :
    (id3v2TrackGainStep md tag).year = md.year := by
  unfold id3v2TrackGainStep
  rcases findFirstUserTextFrame tag "REPLAYGAIN_TRACK_GAIN" with _ | f <;>
    simp <;> split <;> simp

@[simp] theorem id3v2TrackPeakStep_bpm (md : TrackMetadata) (tag : ID3v2Tag) :
    (id3v2TrackPeakStep md tag).bpm = md.bpm := by
  unfold id3v2TrackPeakStep
  rcases findFirstUserTextFrame tag "REPLAYGAIN_TRACK_PEAK" with _ | f <;>
    simp <;> split <;> simp

@[simp] theorem id3v2TrackPeakStep_year (md : TrackMetadata) (tag : ID3v2Tag) :
    (id3v2TrackPeakStep md tag).year = md.year := by
  unfold id3v2TrackPeakStep
  rcases findFirstUserTextFrame tag "REPLAYGAIN_TRACK_PEAK" with _ | f <;>
    simp <;> split <;> simp

@[simp] theorem id3v2TrackPeakStep_replayGain (md : TrackMetadata)
    (tag : ID3v2Tag) :
    (id3v2TrackPeakStep md tag).replayGain = md.replayGain := by
  unfold id3v2TrackPeakStep
  rcases findFirstUserTextFrame tag "REPLAYGAIN_TRACK_PEAK" with _ | f <;>
    simp <;> split <;> simp

@[simp] theorem importID3v2Bpm_fst_year (M : Rat) (md : TrackMetadata)
    (tag : ID3v2Tag) : (importID3v2Bpm M md tag).1.year = md.year := by
  unfold importID3v2Bpm; split <;> simp

theorem importID3v2Bpm_fst_bpm (M : Rat) (md : TrackMetadata)
    (tag : ID3v2Tag) (v : Rat) (hne : tag.tbpm ≠ [])
    (hv : bpmValueFromString (toQStringFirstNotEmpty tag.tbpm) = some v) :
    (importID3v2Bpm M md tag).1.bpm = correctBpmValue v M := by
  simp [importID3v2Bpm, hne, parseBpm, hv]

theorem importID3v2Bpm_snd (M : Rat) (md : TrackMetadata)
    (tag : ID3v2Tag) (v : Rat) (hne : tag.tbpm ≠ [])
    (hv : bpmValueFromString (toQStringFirstNotEmpty tag.tbpm) = some v) :
    (importID3v2Bpm M md tag).2 = decide (correctBpmValue v M ≠ v) := by
  simp [importID3v2Bpm, hne, parseBpm, hv]

/-- C10: for the generic-accessor import shared by all adapters and for
the RIFF import, year and trackNumber are assigned only when the tag
reports a strictly positive number and keep their prior values when the
tag reports zero, while title, artist, album, comment and genre are
always overwritten. -/
theorem importFromTag_year_track_guard :
    ∀ (md : TrackMetadata) (tag : GenericTag) (rtag : RIFFInfoTag),
      ((importTrackMetadataFromTag md tag).year =
        if 0 < tag.year then toString tag.year else md.year) ∧
      ((importTrackMetadataFromTag md tag).trackNumber =
        if 0 < tag.track then toString tag.track else md.trackNumber) ∧
      (importTrackMetadataFromTag md tag).title = tag.title ∧
      (importTrackMetadataFromTag md tag).artist = tag.artist ∧
      (importTrackMetadataFromTag md tag).album = tag.album ∧
      (importTrackMetadataFromTag md tag).comment = tag.comment ∧
      (importTrackMetadataFromTag md tag).genre = tag.genre ∧
      ((importTrackMetadataFromRIFFTag md rtag).year =
        if 0 < rtag.year then toString rtag.year else md.year) ∧
      ((importTrackMetadataFromRIFFTag md rtag).trackNumber =
        if 0 < rtag.track then toString rtag.track else md.trackNumber) ∧
      (importTrackMetadataFromRIFFTag md rtag).title = rtag.title ∧
      (importTrackMetadataFromRIFFTag md rtag).artist = rtag.artist ∧
      (importTrackMetadataFromRIFFTag md rtag).album = rtag.album ∧
      (importTrackMetadataFromRIFFTag md rtag).comment = rtag.comment ∧
      (importTrackMetadataFromRIFFTag md rtag).genre = rtag.genre := by
  intro md tag rtag
  unfold importTrackMetadataFromTag importTrackMetadataFromRIFFTag
  refine ⟨?_, ?_, ?_, ?_, ?_, ?_, ?_, ?_, ?_, ?_, ?_, ?_, ?_, ?_⟩ <;>
    (split <;> split <;> simp)

theorem formatDateISO_ne_empty (y m d : Nat) : formatDateISO y m d ≠ "" := by
  intro h
  have hl := congrArg String.length h
  simp only [formatDateISO, String.length_append] at hl
  simp only [show ("-" : String).length = 1 from rfl,
    show ("" : String).length = 0 from rfl] at hl
  omega

theorem string_ne_empty_of_length (s : String) (n : Nat) (hn : n ≠ 0)
    (h : s.length = n) : s ≠ "" := by
  intro he
  rw [he] at h
  exact hn (by simpa using h.symm)

/-- Reduces the imported year to the result of the year block: every
block after it leaves the year untouched. -/
theorem importID3v2_fst_year_eq (M : Rat) (md : TrackMetadata) (tag : ID3v2Tag) :
    (importTrackMetadataFromID3v2Tag M md tag).1.year =
      (importID3v2Year
        (id3v2GroupingStep
          (id3v2ComposerStep
            (id3v2OriginalAlbumStep
              (id3v2AlbumArtistStep
                (id3v2CommentStep
                  (importTrackMetadataFromTag md tag.generic) tag) tag)
              tag) tag) tag) tag).year := by
  simp only [importTrackMetadataFromID3v2Tag, id3v2TrackPeakStep_year,
    id3v2TrackGainStep_year, id3v2KeyStep_year, importID3v2Bpm_fst_year,
    id3v2TrackNumberStep_year]

theorem importID3v2Year_tdrc (md : TrackMetadata) (tag : ID3v2Tag)
    (h4 : 4 ≤ tag.majorVersion)
    (hne : toQStringFirstNotEmpty tag.tdrc ≠ "") :
    (importID3v2Year md tag).year = toQStringFirstNotEmpty tag.tdrc := by
  rw [importID3v2Year, if_pos ⟨h4, hne⟩]

theorem importID3v2Year_composed (md : TrackMetadata) (tag : ID3v2Tag)
    (y m d : Nat)
    (hno : ¬(4 ≤ tag.majorVersion ∧ toQStringFirstNotEmpty tag.tdrc ≠ ""))
    (hy : (qStringTrimmed (toQStringFirstNotEmpty tag.tyer)).length = 4)
    (hd : (qStringTrimmed (toQStringFirstNotEmpty tag.tdat)).length = 4)
    (hdate : qDateFromStringTYERTDAT
        (qStringTrimmed (toQStringFirstNotEmpty tag.tyer) ++
          qStringTrimmed (toQStringFirstNotEmpty tag.tdat)) = some (y, m, d)) :
    (importID3v2Year md tag).year = formatDateISO y m d := by
  rw [importID3v2Year, if_neg hno]
  simp only [hy, hd, if_pos, hdate]
  simp [formatDateISO_ne_empty y m d]

theorem importID3v2Year_bareTYER_noTDAT (md : TrackMetadata) (tag : ID3v2Tag)
    (hno : ¬(4 ≤ tag.majorVersion ∧ toQStringFirstNotEmpty tag.tdrc ≠ ""))
    (hy : (qStringTrimmed (toQStringFirstNotEmpty tag.tyer)).length = 4)
    (hd : (qStringTrimmed (toQStringFirstNotEmpty tag.tdat)).length ≠ 4) :
    (importID3v2Year md tag).year =
      qStringTrimmed (toQStringFirstNotEmpty tag.tyer) := by
  rw [importID3v2Year, if_neg hno]
  simp only [hy, if_pos, hd, if_neg, if_false]
  simp [string_ne_empty_of_length _ 4 (by omega) hy]

theorem importID3v2Year_bareTYER_badTDAT (md : TrackMetadata) (tag : ID3v2Tag)
    (hno : ¬(4 ≤ tag.majorVersion ∧ toQStringFirstNotEmpty tag.tdrc ≠ ""))
    (hy : (qStringTrimmed (toQStringFirstNotEmpty tag.tyer)).length = 4)
    (hd : (qStringTrimmed (toQStringFirstNotEmpty tag.tdat)).length = 4)
    (hdate : qDateFromStringTYERTDAT
        (qStringTrimmed (toQStringFirstNotEmpty tag.tyer) ++
          qStringTrimmed (toQStringFirstNotEmpty tag.tdat)) = none) :
    (importID3v2Year md tag).year =
      qStringTrimmed (toQStringFirstNotEmpty tag.tyer) := by
  rw [importID3v2Year, if_neg hno]
  simp only [hy, hd, if_pos, hdate]
  simp [string_ne_empty_of_length _ 4 (by omega) hy]

/-- C2: on ID3v2 import with a TBPM frame present, the parsed BPM value
is corrected by repeatedly dividing by 10 while it exceeds the maximum
plausible value (the corrected value is the unique quotient by a power
of ten that first drops to the maximum or below), the corrected value
is stored, and the correction is logged exactly when it changed the
value; in particular, for input text "1452" with maximum 200 the
resulting BPM is 145.2 and the correction is logged. -/
theorem id3v2_bpm_scale_correction :
    (∀ (M : Rat) (md : TrackMetadata) (tag : ID3v2Tag) (v : Rat),
      0 < M → tag.tbpm ≠ [] →
      bpmValueFromString (toQStringFirstNotEmpty tag.tbpm) = some v →
      (importTrackMetadataFromID3v2Tag M md tag).1.bpm = correctBpmValue v M ∧
      ((importTrackMetadataFromID3v2Tag M md tag).2 = true ↔
        correctBpmValue v M ≠ v) ∧
      ∃ k, correctBpmValue v M = v / 10 ^ k ∧ v / 10 ^ k ≤ M ∧
        ∀ j < k, M < v / 10 ^ j) ∧
    ∀ (md : TrackMetadata),
      (importTrackMetadataFromID3v2Tag 200 md tbpm1452Tag).1.bpm = 145.2 ∧
      (importTrackMetadataFromID3v2Tag 200 md tbpm1452Tag).2 = true := by
  have hck : correctBpmValue 1452 200 = 1452 / 10 ^ 1 := by
    apply correctBpmValue_eq 1452 200 (by norm_num) 1 (by norm_num)
    intro j hj
    have hj0 : j = 0 := by omega
    subst hj0
    norm_num
  constructor
  · intro M md tag v hM hne hv
    refine ⟨?_, ?_, correctBpmValue_spec v M hM⟩
    · simp only [importTrackMetadataFromID3v2Tag, id3v2TrackPeakStep_bpm,
        id3v2TrackGainStep_bpm, id3v2KeyStep_bpm]
      rw [importID3v2Bpm_fst_bpm M _ tag v hne hv]
    · simp only [importTrackMetadataFromID3v2Tag]
      rw [importID3v2Bpm_snd M _ tag v hne hv]
      simp
  · intro md
    have hne : tbpm1452Tag.tbpm ≠ [] := by decide
    have hv : bpmValueFromString (toQStringFirstNotEmpty tbpm1452Tag.tbpm) =
        some 1452 := by decide
    constructor
    · simp only [importTrackMetadataFromID3v2Tag, id3v2TrackPeakStep_bpm,
        id3v2TrackGainStep_bpm, id3v2KeyStep_bpm]
      rw [importID3v2Bpm_fst_bpm 200 _ tbpm1452Tag 1452 hne hv, hck]
      norm_num
    · simp only [importTrackMetadataFromID3v2Tag]
      rw [importID3v2Bpm_snd 200 _ tbpm1452Tag 1452 hne hv, hck]
      rw [decide_eq_true_eq]
      norm_num

/-- Witness for C2: the general statement applied to the concrete tag
holding TBPM "1452" with maximum 200. -/
theorem id3v2_bpm_scale_correction_witness :
    (0 : Rat) < 200 ∧ tbpm1452Tag.tbpm ≠ [] ∧
    bpmValueFromString (toQStringFirstNotEmpty tbpm1452Tag.tbpm) =
      some 1452 ∧
    (importTrackMetadataFromID3v2Tag 200 emptyTrackMetadata
      tbpm1452Tag).1.bpm = correctBpmValue 1452 200 ∧
    (importTrackMetadataFromID3v2Tag 200 emptyTrackMetadata
      tbpm1452Tag).1.bpm = 145.2 := by
  refine ⟨by norm_num, by decide, by decide, ?_, ?_⟩
  · exact (id3v2_bpm_scale_correction.1 200 emptyTrackMetadata tbpm1452Tag
      1452 (by norm_num) (by decide) (by decide)).1
  · exact (id3v2_bpm_scale_correction.2 emptyTrackMetadata).1

/-- C4: on ID3v2 import the year is taken from a non-empty TDRC when the
tag's major version is at least 4; otherwise it is assembled from a
4-character trimmed TYER and a 4-character trimmed TDAT into a composed
date, falling back to the bare trimmed TYER text when TDAT is absent or
does not form a valid date; in particular TYER "1999" with no TDAT
yields year "1999", and TYER "1999" with TDAT "0106" yields the date
June 1, 1999. -/
theorem id3v2_year_resolution :
    (∀ (M : Rat) (md : TrackMetadata) (tag : ID3v2Tag),
      (4 ≤ tag.majorVersion → toQStringFirstNotEmpty tag.tdrc ≠ "" →
        (importTrackMetadataFromID3v2Tag M md tag).1.year =
          toQStringFirstNotEmpty tag.tdrc) ∧
      (¬(4 ≤ tag.majorVersion ∧ toQStringFirstNotEmpty tag.tdrc ≠ "") →
        (qStringTrimmed (toQStringFirstNotEmpty tag.tyer)).length = 4 →
        (∀ (y m d : Nat),
          (qStringTrimmed (toQStringFirstNotEmpty tag.tdat)).length = 4 →
          qDateFromStringTYERTDAT
            (qStringTrimmed (toQStringFirstNotEmpty tag.tyer) ++
              qStringTrimmed (toQStringFirstNotEmpty tag.tdat)) =
            some (y, m, d) →
          (importTrackMetadataFromID3v2Tag M md tag).1.year =
            formatDateISO y m d) ∧
        ((qStringTrimmed (toQStringFirstNotEmpty tag.tdat)).length ≠ 4 →
          (importTrackMetadataFromID3v2Tag M md tag).1.year =
            qStringTrimmed (toQStringFirstNotEmpty tag.tyer)) ∧
        ((qStringTrimmed (toQStringFirstNotEmpty tag.tdat)).length = 4 →
          qDateFromStringTYERTDAT
            (qStringTrimmed (toQStringFirstNotEmpty tag.tyer) ++
              qStringTrimmed (toQStringFirstNotEmpty tag.tdat)) = none →
          (importTrackMetadataFromID3v2Tag M md tag).1.year =
            qStringTrimmed (toQStringFirstNotEmpty tag.tyer)))) ∧
    ∀ (M : Rat) (md : TrackMetadata),
      (importTrackMetadataFromID3v2Tag M md tyer1999Tag).1.year = "1999" ∧
      (importTrackMetadataFromID3v2Tag M md tyerTdatTag).1.year =
        "1999-06-01" := by
  constructor
  · intro M md tag
    constructor
    · intro h4 hne
      rw [importID3v2_fst_year_eq]
      exact importID3v2Year_tdrc _ tag h4 hne
    · intro hno hy
      refine ⟨?_, ?_, ?_⟩
      · intro y m d hd hdate
        rw [importID3v2_fst_year_eq]
        exact importID3v2Year_composed _ tag y m d hno hy hd hdate
      · intro hd
        rw [importID3v2_fst_year_eq]
        exact importID3v2Year_bareTYER_noTDAT _ tag hno hy hd
      · intro hd hdate
        rw [importID3v2_fst_year_eq]
        exact importID3v2Year_bareTYER_badTDAT _ tag hno hy hd hdate
  · intro M md
    constructor
    · rw [importID3v2_fst_year_eq]
      rw [importID3v2Year_bareTYER_noTDAT _ tyer1999Tag (by decide)
        (by decide) (by decide)]
      decide
    · rw [importID3v2_fst_year_eq]
      rw [importID3v2Year_composed _ tyerTdatTag 1999 6 1 (by decide)
        (by decide) (by decide) (by decide)]
      decide

/-- Witness for C4: the fallback clauses applied to the concrete
ID3v2.3 tags with TYER "1999" (no TDAT, then TDAT "0106"). -/
theorem id3v2_year_resolution_witness :
    (importTrackMetadataFromID3v2Tag 200 emptyTrackMetadata
      tyer1999Tag).1.year = "1999" ∧
    (importTrackMetadataFromID3v2Tag 200 emptyTrackMetadata
      tyerTdatTag).1.year = "1999-06-01" ∧
    (importTrackMetadataFromID3v2Tag 200 emptyTrackMetadata
      tyer1999Tag).1.year =
      qStringTrimmed (toQStringFirstNotEmpty tyer1999Tag.tyer) := by
  refine ⟨(id3v2_year_resolution.2 200 emptyTrackMetadata).1,
    (id3v2_year_resolution.2 200 emptyTrackMetadata).2, ?_⟩
  have h := ((id3v2_year_resolution.1 200 emptyTrackMetadata
    tyer1999Tag).2 (by decide) (by decide)).2.1 (by decide)
  exact h

/-- C3: the shared track-gain parser (used by every adapter) maps a
replay-gain text that parses to a ratio of exactly 0 dB to the
"undefined" sentinel rather than storing the parsed value, while still
reporting the parse as valid; the ID3v2 import with a
REPLAYGAIN_TRACK_GAIN frame holding "0 dB" therefore stores the
sentinel. -/
theorem replaygain_zero_db_sentinel :
    (∀ (md : TrackMetadata) (s : String) (r : RGRatio),
      ratioFromString s = some r → r = kRatio0dB →
      (parseTrackGain md s).1.replayGain = kRatioUndefined ∧
      (parseTrackGain md s).2 = true ∧
      kRatioUndefined ≠ kRatio0dB) ∧
    (∀ (M : Rat) (md : TrackMetadata),
      (importTrackMetadataFromID3v2Tag M md zeroDbGainTag).1.replayGain =
        kRatioUndefined) ∧
    ratioFromString "0 dB" = some kRatio0dB := by
  refine ⟨?_, ?_, by decide⟩
  · intro md s r h hr
    subst hr
    refine ⟨?_, ?_, by decide⟩
    · simp [parseTrackGain, h]
    · simp [parseTrackGain, h]
  · intro M md
    have hfind : findFirstUserTextFrame zeroDbGainTag
        "REPLAYGAIN_TRACK_GAIN" =
        some { description := "REPLAYGAIN_TRACK_GAIN", values := ["0 dB"] } := by
      decide
    have hratio : ratioFromString "0 dB" = some (RGRatio.fromDb 0) := by
      decide
    simp only [importTrackMetadataFromID3v2Tag,
      id3v2TrackPeakStep_replayGain]
    simp only [id3v2TrackGainStep, hfind]
    rw [if_pos (by decide)]
    simp [parseTrackGain, ID3v2UserTextFrame.fieldList, hratio, kRatio0dB,
      kRatioUndefined]

/-- Witness for C3: the parser applied to the concrete text "0 dB". -/
theorem replaygain_zero_db_sentinel_witness :
    ratioFromString "0 dB" = some kRatio0dB ∧
    (parseTrackGain emptyTrackMetadata "0 dB").1.replayGain =
      kRatioUndefined ∧
    (parseTrackGain emptyTrackMetadata "0 dB").2 = true ∧
    (importTrackMetadataFromID3v2Tag 200 emptyTrackMetadata
      zeroDbGainTag).1.replayGain = kRatioUndefined := by
  have h := replaygain_zero_db_sentinel.1 emptyTrackMetadata "0 dB"
    kRatio0dB (by decide) rfl
  exact ⟨by decide, h.1, h.2.1,
    replaygain_zero_db_sentinel.2.1 200 emptyTrackMetadata⟩

/-- C5: ID3v2 export returns failure and leaves the tag completely
unmodified (no partial write) whenever the tag has no parseable version
header or its major version is below 3. -/
theorem id3v2_export_unsupported_version_noop :
    ∀ (tag : ID3v2Tag) (md : TrackMetadata),
      (∀ v, tag.header = some v → v < 3) →
      exportTrackMetadataIntoID3v2Tag tag md = (tag, false) := by
  intro tag md h
  cases hh : tag.header with
  | none => simp [exportTrackMetadataIntoID3v2Tag, hh]
  | some v =>
    have hv : v < 3 := h v hh
    simp [exportTrackMetadataIntoID3v2Tag, hh, hv]

/-- Witness for C5: the export applied to a tag with an unparseable
header and to an ID3v2.2 tag. -/
theorem id3v2_export_unsupported_version_noop_witness :
    (∀ v, noHeaderTag.header = some v → v < 3) ∧
    exportTrackMetadataIntoID3v2Tag noHeaderTag emptyTrackMetadata =
      (noHeaderTag, false) ∧
    (∀ v, version2Tag.header = some v → v < 3) ∧
    exportTrackMetadataIntoID3v2Tag version2Tag emptyTrackMetadata =
      (version2Tag, false) := by
  have h1 : ∀ v, noHeaderTag.header = some v → v < 3 := by
    intro v hv
    simp [noHeaderTag] at hv
  have h2 : ∀ v, version2Tag.header = some v → v < 3 := by
    intro v hv
    simp [version2Tag] at hv
    omega
  exact ⟨h1,
    id3v2_export_unsupported_version_noop noHeaderTag emptyTrackMetadata h1,
    h2,
    id3v2_export_unsupported_version_noop version2Tag emptyTrackMetadata h2⟩

theorem toQStringFirstNotEmpty_singleton (v : String) (h : v ≠ "") :
    toQStringFirstNotEmpty [v] = v := by
  simp [toQStringFirstNotEmpty, List.find?_cons, h]

/-- C8: for each adapter write primitive (APE item, Vorbis Comment
field, MP4 atom, ID3v2 text frame), exporting an empty string removes
the container entry and a subsequent read of that entry yields nothing,
while exporting a non-empty value fully replaces any prior content with
exactly that value. -/
theorem export_empty_purges_nonempty_replaces :
    ∀ (key value : String) (ape : APETag) (xiph : XiphComment)
      (mp4 : MP4Tag) (frames : List String),
      readAPEItem (writeAPEItem ape key "") key = none ∧
      (value ≠ "" →
        readAPEItem (writeAPEItem ape key value) key = some value) ∧
      readXiphCommentField (writeXiphCommentField xiph key "") key = none ∧
      (value ≠ "" →
        readXiphCommentField (writeXiphCommentField xiph key value) key =
          some value) ∧
      readMP4Atom (writeMP4Atom mp4 key "") key = none ∧
      (value ≠ "" →
        readMP4Atom (writeMP4Atom mp4 key value) key = some value) ∧
      readID3v2TextFrameList (writeID3v2TextFrameList "" frames) = none ∧
      (value ≠ "" →
        readID3v2TextFrameList (writeID3v2TextFrameList value frames) =
          some value) := by
  intro key value ape xiph mp4 frames
  refine ⟨?_, ?_, ?_, ?_, ?_, ?_, ?_, ?_⟩
  · simp [readAPEItem, writeAPEItem, updateStringListFun]
  · intro h
    simp [readAPEItem, writeAPEItem, updateStringListFun, h,
      toQStringFirstNotEmpty_singleton value h]
  · simp [readXiphCommentField, writeXiphCommentField, updateStringListFun]
  · intro h
    simp [readXiphCommentField, writeXiphCommentField, updateStringListFun,
      h, toQStringFirstNotEmpty_singleton value h]
  · simp [readMP4Atom, writeMP4Atom, updateStringListFun]
  · intro h
    simp [readMP4Atom, writeMP4Atom, updateStringListFun, h,
      toQStringFirstNotEmpty_singleton value h]
  · simp [readID3v2TextFrameList, writeID3v2TextFrameList,
      removeID3v2Frames]
  · intro h
    simp [readID3v2TextFrameList, writeID3v2TextFrameList,
      removeID3v2Frames, h, toQStringFirstNotEmpty_singleton value h]

/-- Witness for C8: the purge and replace laws at the key "KEY" and the
value "x" on concrete tags. -/
theorem export_empty_purges_nonempty_replaces_witness :
    ("x" : String) ≠ "" ∧
    readAPEItem (writeAPEItem emptyAPETag "KEY" "x") "KEY" = some "x" ∧
    readXiphCommentField
      (writeXiphCommentField emptyXiphComment "KEY" "x") "KEY" = some "x" ∧
    readMP4Atom (writeMP4Atom emptyMP4Tag "KEY" "x") "KEY" = some "x" ∧
    readID3v2TextFrameList (writeID3v2TextFrameList "x" ["old"]) =
      some "x" ∧
    readAPEItem (writeAPEItem emptyAPETag "KEY" "") "KEY" = none := by
  obtain ⟨h1, h2, h3, h4, h5, h6, h7, h8⟩ :=
    export_empty_purges_nonempty_replaces "KEY" "x" emptyAPETag
      emptyXiphComment emptyMP4Tag ["old"]
  exact ⟨by decide, h2 (by decide), h4 (by decide), h6 (by decide),
    h8 (by decide), h1⟩

theorem writeXiph_fields_eq (t : XiphComment) (k v : String) :
    (writeXiphCommentField t k v).fields k = if v = "" then [] else [v] := by
  by_cases h : v = "" <;>
    simp [writeXiphCommentField, updateStringListFun, h]

theorem writeXiph_fields_ne (t : XiphComment) (k k2 v : String)
    (h : k2 ≠ k) :
    (writeXiphCommentField t k v).fields k2 = t.fields k2 := by
  by_cases hv : v = "" <;>
    simp [writeXiphCommentField, updateStringListFun, hv, h]

theorem updateXiph_fields_ne (t : XiphComment) (k k2 v : String)
    (h : k2 ≠ k) :
    (updateXiphCommentField t k v).fields k2 = t.fields k2 := by
  unfold updateXiphCommentField
  split
  · exact writeXiph_fields_ne t k k2 v h
  · rfl

theorem updateXiph_fields_absent (t : XiphComment) (k v : String)
    (h : t.fields k = []) :
    (updateXiphCommentField t k v).fields k = [] := by
  simp [updateXiphCommentField, readXiphCommentField, h]

theorem updateXiph_fields_present (t : XiphComment) (k v : String)
    (h : t.fields k ≠ []) :
    (updateXiphCommentField t k v).fields k =
      if v = "" then [] else [v] := by
  simp [updateXiphCommentField, readXiphCommentField, h,
    writeXiph_fields_eq]

/-- C6: the Vorbis Comment export writes the recommended fields
TRACKTOTAL, ALBUMARTIST, TEMPO and INITIALKEY unconditionally (purging
them when the exported value is empty), while the alternative fields
TOTALTRACKS, ALBUM_ARTIST, "ALBUM ARTIST", ENSEMBLE, BPM and KEY are
updated only when they already exist: an export never creates an
alternative field that was absent before the call. -/
theorem xiph_dual_write_policy :
    ∀ (tag : XiphComment) (md : TrackMetadata),
      ((exportTrackMetadataIntoXiphComment tag md).1.fields "TRACKTOTAL" =
        if md.trackTotal = "" then [] else [md.trackTotal]) ∧
      ((exportTrackMetadataIntoXiphComment tag md).1.fields "ALBUMARTIST" =
        if md.albumArtist = "" then [] else [md.albumArtist]) ∧
      ((exportTrackMetadataIntoXiphComment tag md).1.fields "TEMPO" =
        if formatBpm md = "" then [] else [formatBpm md]) ∧
      ((exportTrackMetadataIntoXiphComment tag md).1.fields "INITIALKEY" =
        if md.key = "" then [] else [md.key]) ∧
      (tag.fields "TOTALTRACKS" = [] →
        (exportTrackMetadataIntoXiphComment tag md).1.fields
          "TOTALTRACKS" = []) ∧
      (tag.fields "ALBUM_ARTIST" = [] →
        (exportTrackMetadataIntoXiphComment tag md).1.fields
          "ALBUM_ARTIST" = []) ∧
      (tag.fields "ALBUM ARTIST" = [] →
        (exportTrackMetadataIntoXiphComment tag md).1.fields
          "ALBUM ARTIST" = []) ∧
      (tag.fields "ENSEMBLE" = [] →
        (exportTrackMetadataIntoXiphComment tag md).1.fields
          "ENSEMBLE" = []) ∧
      (tag.fields "BPM" = [] →
        (exportTrackMetadataIntoXiphComment tag md).1.fields "BPM" = []) ∧
      (tag.fields "KEY" = [] →
        (exportTrackMetadataIntoXiphComment tag md).1.fields "KEY" = []) ∧
      (tag.fields "TOTALTRACKS" ≠ [] →
        (exportTrackMetadataIntoXiphComment tag md).1.fields "TOTALTRACKS" =
          if md.trackTotal = "" then [] else [md.trackTotal]) ∧
      (tag.fields "ALBUM_ARTIST" ≠ [] →
        (exportTrackMetadataIntoXiphComment tag md).1.fields "ALBUM_ARTIST" =
          if md.albumArtist = "" then [] else [md.albumArtist]) ∧
      (tag.fields "ALBUM ARTIST" ≠ [] →
        (exportTrackMetadataIntoXiphComment tag md).1.fields "ALBUM ARTIST" =
          if md.albumArtist = "" then [] else [md.albumArtist]) ∧
      (tag.fields "ENSEMBLE" ≠ [] →
        (exportTrackMetadataIntoXiphComment tag md).1.fields "ENSEMBLE" =
          if md.albumArtist = "" then [] else [md.albumArtist]) ∧
      (tag.fields "BPM" ≠ [] →
        (exportTrackMetadataIntoXiphComment tag md).1.fields "BPM" =
          if formatBpm md = "" then [] else [formatBpm md]) ∧
      (tag.fields "KEY" ≠ [] →
        (exportTrackMetadataIntoXiphComment tag md).1.fields "KEY" =
          if md.key = "" then [] else [md.key]) := by
  intro tag md
  refine ⟨?_, ?_, ?_, ?_, ?_, ?_, ?_, ?_, ?_, ?_, ?_, ?_, ?_, ?_, ?_, ?_⟩ <;>
    (try intro h) <;>
    simp only [exportTrackMetadataIntoXiphComment] <;>
    simp +decide [writeXiph_fields_eq, writeXiph_fields_ne,
      updateXiph_fields_ne, updateXiph_fields_absent,
      updateXiph_fields_present, *]

/-- Witness for C6: the dual-write policy on a Vorbis comment with no
fields (alternatives stay absent) and on one that carries every
alternative field (alternatives get updated). -/
theorem xiph_dual_write_policy_witness :
    emptyXiphComment.fields "BPM" = [] ∧
    (exportTrackMetadataIntoXiphComment emptyXiphComment
      emptyTrackMetadata).1.fields "BPM" = [] ∧
    allAltXiphComment.fields "KEY" ≠ [] ∧
    (exportTrackMetadataIntoXiphComment allAltXiphComment
      { emptyTrackMetadata with key := "4A" }).1.fields "KEY" = ["4A"] ∧
    (exportTrackMetadataIntoXiphComment allAltXiphComment
      { emptyTrackMetadata with key := "4A" }).1.fields "INITIALKEY" =
      ["4A"] := by
  have he := xiph_dual_write_policy emptyXiphComment emptyTrackMetadata
  have ha := xiph_dual_write_policy allAltXiphComment
    { emptyTrackMetadata with key := "4A" }
  refine ⟨by decide, he.2.2.2.2.2.2.2.2.1 (by decide), by decide, ?_, ?_⟩
  · have h := ha.2.2.2.2.2.2.2.2.2.2.2.2.2.2.2 (by decide)
    simpa using h
  · have h := ha.2.2.2.1
    simpa using h

theorem scanForType_eq_filter (t : Nat) (pics : List TagPicture) :
    scanPicturesForType t pics =
      scanPicturesAny (pics.filter (fun p => p.pictype = t)) := by
  induction pics with
  | nil => simp [scanPicturesForType, scanPicturesAny]
  | cons p rest ih =>
    by_cases h : p.pictype = t
    · cases hd : p.decoded <;>
        simp [scanPicturesForType, List.filter_cons, scanPicturesAny,
          h, hd, ih]
    · simp [scanPicturesForType, List.filter_cons, h, ih]

theorem scanAny_append (l1 l2 : List TagPicture) :
    scanPicturesAny (l1 ++ l2) =
      match scanPicturesAny l1 with
      | some img => some img
      | none => scanPicturesAny l2 := by
  induction l1 with
  | nil => simp [scanPicturesAny]
  | cons p rest ih =>
    cases hd : p.decoded <;> simp [scanPicturesAny, hd, ih]

theorem scanPreferred_eq_join (ts : List Nat) (pics : List TagPicture) :
    scanPreferredTypes ts pics =
      scanPicturesAny
        ((ts.map (fun t => pics.filter (fun p => p.pictype = t))).join) := by
  induction ts with
  | nil => simp [scanPreferredTypes, scanPicturesAny]
  | cons t ts ih =>
    simp only [scanPreferredTypes, List.map_cons, List.join,
      List.flatten_cons, scanAny_append, scanForType_eq_filter, ih]

/-- C7: for every typed picture list, cover-art extraction scans the
types in the priority order FrontCover, Media, Illustration, Other and
returns the first picture that decodes, falling back to the whole list
in original order when no typed match decodes — equivalently, it
returns the first decodable picture of the priority-reordered list, so
a decode failure of one candidate never aborts the scan. The same holds
for the ID3v2 APIC variant, which keeps the caller's cover art when
everything fails. A list with one Illustration and one decodable
FrontCover yields the FrontCover; with only an Illustration and an
undecodable FrontCover it yields the Illustration. -/
theorem cover_art_priority :
    (∀ (pictures : List TagPicture),
      importCoverImageFromVorbisCommentPictureList pictures =
        scanPicturesAny (priorityReordered pictures)) ∧
    (∀ (coverArt : Option Nat) (apicFrames : List TagPicture),
      importCoverImageFromID3v2Frames coverArt apicFrames =
        match scanPicturesAny (priorityReordered apicFrames) with
        | some img => some img
        | none => coverArt) ∧
    importCoverImageFromVorbisCommentPictureList
      [illustrationPic, frontCoverPic] = some 2 ∧
    importCoverImageFromVorbisCommentPictureList
      [illustrationPic, badFrontCoverPic] = some 1 := by
  refine ⟨?_, ?_, by decide, by decide⟩
  · intro pics
    unfold importCoverImageFromVorbisCommentPictureList priorityReordered
    by_cases hempty : pics.isEmpty
    · have hnil : pics = [] := by simpa using hempty
      subst hnil
      simp [scanPicturesAny, kPreferredVorbisCommentPictureTypes]
    · simp only [hempty, Bool.false_eq_true, if_false]
      rw [scanPreferred_eq_join, scanAny_append]
  · intro coverArt frames
    unfold importCoverImageFromID3v2Frames priorityReordered
    by_cases hempty : frames.isEmpty
    · have hnil : frames = [] := by simpa using hempty
      subst hnil
      simp [scanPicturesAny, kPreferredVorbisCommentPictureTypes,
        kPreferredID3v2PictureTypes]
    · simp only [hempty, Bool.false_eq_true, if_false]
      rw [show kPreferredID3v2PictureTypes =
          kPreferredVorbisCommentPictureTypes from rfl,
        scanPreferred_eq_join, scanAny_append]
      cases hA : scanPicturesAny
        ((kPreferredVorbisCommentPictureTypes.map
          (fun t => frames.filter (fun p => p.pictype = t))).join) <;>
        simp [hA]

theorem sharedPtrBeq_refl {α : Type} (p : SharedPtr α) :
    sharedPtrBeq p p = true := by
  simp [sharedPtrBeq]

theorem listPtrBeq_refl {α : Type} (l : List (SharedPtr α)) :
    listPtrBeq l l = true := by
  induction l with
  | nil => rfl
  | cons p ps ih => simp [listPtrBeq, sharedPtrBeq_refl, ih]

theorem optionPtrBeq_refl {α : Type} (o : Option (SharedPtr α)) :
    optionPtrBeq o o = true := by
  cases o with
  | none => rfl
  | some p => simp [optionPtrBeq, sharedPtrBeq_refl]

/-- C9: `operator==` on `SeratoBeatGrid` compares the terminal marker
and the non-terminal marker list by shared-pointer identity and ignores
the footer byte: two grids differing only in the footer byte compare
equal, while two grids holding distinct marker objects (different
addresses) with identical field values compare unequal, both for the
terminal marker and for a non-terminal marker. -/
theorem serato_beatgrid_eq_pointer_identity :
    (∀ (g : SeratoBeatGrid) (f1 f2 : Nat),
      seratoBeatGridEq { g with footer := f1 } { g with footer := f2 } =
        true) ∧
    (∀ (a1 a2 : Nat) (v : SeratoBeatGridTerminalMarker)
        (nt : List (SharedPtr SeratoBeatGridNonTerminalMarker)) (f : Nat),
      a1 ≠ a2 →
      seratoBeatGridEq ⟨some ⟨a1, v⟩, nt, f⟩ ⟨some ⟨a2, v⟩, nt, f⟩ =
        false) ∧
    (∀ (a1 a2 : Nat) (w : SeratoBeatGridNonTerminalMarker) (f1 f2 : Nat),
      a1 ≠ a2 →
      seratoBeatGridEq ⟨none, [⟨a1, w⟩], f1⟩ ⟨none, [⟨a2, w⟩], f2⟩ =
        false) := by
  refine ⟨?_, ?_, ?_⟩
  · intro g f1 f2
    simp [seratoBeatGridEq, optionPtrBeq_refl, listPtrBeq_refl]
  · intro a1 a2 v nt f h
    simp [seratoBeatGridEq, optionPtrBeq, sharedPtrBeq, h]
  · intro a1 a2 w f1 f2 h
    simp [seratoBeatGridEq, optionPtrBeq, listPtrBeq, sharedPtrBeq, h]

/-- Witness for C9: concrete grids at addresses 1 and 2. -/
theorem serato_beatgrid_eq_pointer_identity_witness :
    seratoBeatGridEq
      { exampleBeatGrid with footer := 0 }
      { exampleBeatGrid with footer := 255 } = true ∧
    ((1 : Nat) ≠ 2) ∧
    seratoBeatGridEq ⟨some ⟨1, ⟨0, 120⟩⟩, [], 0⟩
      ⟨some ⟨2, ⟨0, 120⟩⟩, [], 0⟩ = false ∧
    seratoBeatGridEq ⟨none, [⟨1, ⟨0, 4⟩⟩], 0⟩
      ⟨none, [⟨2, ⟨0, 4⟩⟩], 0⟩ = false := by
  exact ⟨serato_beatgrid_eq_pointer_identity.1 exampleBeatGrid 0 255,
    by decide,
    serato_beatgrid_eq_pointer_identity.2.1 1 2 ⟨0, 120⟩ [] 0 (by decide),
    serato_beatgrid_eq_pointer_identity.2.2 1 2 ⟨0, 4⟩ 0 0 (by decide)⟩

theorem u32_roundtrip (n : Nat) (h : n < 2 ^ 32) :
    u32FromBE (n / 2 ^ 24 % 256) (n / 2 ^ 16 % 256) (n / 2 ^ 8 % 256)
      (n % 256) = n := by
  unfold u32FromBE
  omega

theorem u32BE_mem_lt (n : Nat) : ∀ x ∈ u32BE n, x < 256 := by
  intro x hx
  simp [u32BE] at hx
  rcases hx with h | h | h | h <;> omega

theorem b64_dec_enc : ∀ n, n < 64 → b64DecChar (b64EncChar n) = some n := by
  decide

theorem b64EncChar_ne_61 : ∀ n, n < 64 → b64EncChar n ≠ 61 := by
  decide

theorem b64_roundtrip_fuel :
    ∀ (fuel : Nat) (bs : List Nat), bs.length ≤ fuel →
      (∀ x ∈ bs, x < 256) → b64Decode (b64Encode bs) = some bs := by
  intro fuel
  induction fuel with
  | zero =>
    intro bs hlen _
    have hnil : bs = [] := by
      cases bs with
      | nil => rfl
      | cons a t => simp at hlen
    subst hnil
    rfl
  | succ n ih =>
    intro bs hlen hb
    match bs with
    | [] => rfl
    | [a] =>
      have ha : a < 256 := hb a (by simp)
      have h1 : a / 4 < 64 := by omega
      have h2 : a % 4 * 16 < 64 := by omega
      simp only [b64Encode, b64Decode, b64_dec_enc _ h1, b64_dec_enc _ h2]
      rw [if_pos (by simp), if_pos (by omega)]
      simp only [Option.some.injEq, List.cons.injEq, and_true]
      omega
    | [a, b] =>
      have ha : a < 256 := hb a (by simp)
      have hbb : b < 256 := hb b (by simp)
      have h1 : a / 4 < 64 := by omega
      have h2 : a % 4 * 16 + b / 16 < 64 := by omega
      have h3 : b % 16 * 4 < 64 := by omega
      simp only [b64Encode, b64Decode, b64_dec_enc _ h1, b64_dec_enc _ h2]
      rw [if_neg (by
        intro hcon
        exact b64EncChar_ne_61 _ h3 hcon.1)]
      rw [if_pos (by simp)]
      simp only [b64_dec_enc _ h3]
      rw [if_pos (by omega)]
      simp only [Option.some.injEq, List.cons.injEq, and_true]
      omega
    | a :: b :: c :: rest =>
      have ha : a < 256 := hb a (by simp)
      have hbb : b < 256 := hb b (by simp)
      have hc : c < 256 := hb c (by simp)
      have hrest : b64Decode (b64Encode rest) = some rest := by
        apply ih rest
        · simp at hlen
          omega
        · intro x hx
          exact hb x (by simp [hx])
      have h1 : a / 4 < 64 := by omega
      have h2 : a % 4 * 16 + b / 16 < 64 := by omega
      have h3 : b % 16 * 4 + c / 64 < 64 := by omega
      have h4 : c % 64 < 64 := by omega
      simp only [b64Encode, b64Decode, b64_dec_enc _ h1, b64_dec_enc _ h2]
      rw [if_neg (by
        intro hcon
        exact b64EncChar_ne_61 _ h3 hcon.1)]
      rw [if_neg (by
        intro hcon
        exact b64EncChar_ne_61 _ h4 hcon.1)]
      simp only [b64_dec_enc _ h3, b64_dec_enc _ h4, hrest]
      simp only [Option.some.injEq, List.cons.injEq, and_true,
        eq_self_iff_true]
      omega

theorem b64_roundtrip (bs : List Nat) (hb : ∀ x ∈ bs, x < 256) :
    b64Decode (b64Encode bs) = some bs :=
  b64_roundtrip_fuel bs.length bs (Nat.le_refl _) hb

theorem dumpID3_bytes_lt (g : SeratoBeatGrid) (hwf : g.wellFormed) :
    ∀ x ∈ g.dumpID3, x < 256 := by
  obtain ⟨hnt, hterm, hfoot, -, -⟩ := hwf
  intro x hx
  simp only [SeratoBeatGrid.dumpID3, List.append_assoc, List.cons_append,
    List.nil_append, List.mem_cons, List.mem_append] at hx
  rcases hx with h | h | h | h | h
  · omega
  · omega
  · exact u32BE_mem_lt _ x h
  · rcases List.mem_join.mp h with ⟨l, hl, hxl⟩
    rcases List.mem_map.mp hl with ⟨p, hp, rfl⟩
    rcases List.mem_append.mp hxl with h2 | h2
    · exact u32BE_mem_lt _ x h2
    · exact u32BE_mem_lt _ x h2
  · rcases h with h2 | h2 | h2
    · cases hT : g.pTerminalMarker with
      | none => rw [hT] at h2; simp at h2
      | some p =>
        rw [hT] at h2
        simp only [dumpTerminalMarkerID3, List.mem_append] at h2
        rcases h2 with h3 | h3
        · exact u32BE_mem_lt _ x h3
        · exact u32BE_mem_lt _ x h3
    · omega
    · simp at h2

theorem parseNT_dump (l : List (SharedPtr SeratoBeatGridNonTerminalMarker))
    (tail : List Nat)
    (h : ∀ p ∈ l, p.val.positionSecs < 2 ^ 32 ∧
      p.val.beatsTillNextMarker < 2 ^ 32) :
    parseNonTerminalMarkersID3 l.length
      ((l.map (fun p => dumpNonTerminalMarkerID3 p.val)).join ++ tail) =
      some (l.map (fun p =>
        (⟨0, p.val⟩ : SharedPtr SeratoBeatGridNonTerminalMarker)), tail) := by
  induction l with
  | nil => simp [parseNonTerminalMarkersID3]
  | cons p ps ih =>
    have hp := h p (by simp)
    have hps : ∀ q ∈ ps, q.val.positionSecs < 2 ^ 32 ∧
        q.val.beatsTillNextMarker < 2 ^ 32 :=
      fun q hq => h q (by simp [hq])
    have ih2 := ih hps
    simp only [List.join, dumpNonTerminalMarkerID3, u32BE, List.append_eq,
      List.cons_append, List.nil_append, List.append_assoc] at ih2
    simp only [List.map_cons, List.join, List.flatten_cons,
      List.length_cons, dumpNonTerminalMarkerID3, u32BE,
      List.cons_append, List.nil_append, List.append_assoc,
      List.append_eq, parseNonTerminalMarkersID3]
    rw [ih2]
    simp only [Option.map_some']
    rw [show p.val = ⟨p.val.positionSecs, p.val.beatsTillNextMarker⟩ from rfl]
    simp only [Option.some.injEq, Prod.mk.injEq, List.cons.injEq,
      SharedPtr.mk.injEq, SeratoBeatGridNonTerminalMarker.mk.injEq,
      and_true, true_and, eq_self_iff_true]
    refine ⟨?_, ?_⟩ <;> (unfold u32FromBE; omega)

theorem parseID3_dumpID3 (g : SeratoBeatGrid) (hwf : g.wellFormed) :
    SeratoBeatGrid.parseID3 g.dumpID3 =
      some ⟨g.pTerminalMarker.map (fun p => ⟨0, p.val⟩),
        g.nonTerminalMarkers.map (fun p => ⟨0, p.val⟩), g.footer⟩ := by
  obtain ⟨hnt, hterm, hfoot, hempty, hcount⟩ := hwf
  cases hT : g.pTerminalMarker with
  | none =>
    have hnil := hempty hT
    simp only [SeratoBeatGrid.dumpID3, hT, hnil]
    simp [u32BE, u32FromBE, SeratoBeatGrid.parseID3]
  | some pt =>
    have hptb := hterm pt hT
    simp only [SeratoBeatGrid.dumpID3, hT, Option.isSome_some, if_pos,
      u32BE, List.cons_append, List.nil_append, List.append_assoc]
    simp only [SeratoBeatGrid.parseID3]
    rw [u32_roundtrip _ hcount]
    rw [if_neg (by omega)]
    rw [show g.nonTerminalMarkers.length + 1 - 1 =
      g.nonTerminalMarkers.length from rfl]
    have hpnt := parseNT_dump g.nonTerminalMarkers
      (dumpTerminalMarkerID3 pt.val ++ [g.footer]) hnt
    simp only [dumpTerminalMarkerID3, u32BE, List.cons_append,
      List.nil_append, List.append_assoc] at hpnt ⊢
    rw [hpnt]
    simp only [Option.map_some']
    rw [u32_roundtrip _ hptb.1, u32_roundtrip _ hptb.2]

theorem dumpID3_congr (g1 g2 : SeratoBeatGrid)
    (h : seratoBeatGridValueEq g1 g2) : g1.dumpID3 = g2.dumpID3 := by
  obtain ⟨hnt, hterm, hfoot⟩ := h
  unfold SeratoBeatGrid.dumpID3
  have hlen : g1.nonTerminalMarkers.length =
      g2.nonTerminalMarkers.length := by
    have hc := congrArg List.length hnt
    simpa using hc
  have hjoin : (g1.nonTerminalMarkers.map
      (fun p => dumpNonTerminalMarkerID3 p.val)).join =
      (g2.nonTerminalMarkers.map
        (fun p => dumpNonTerminalMarkerID3 p.val)).join := by
    rw [show (fun p : SharedPtr SeratoBeatGridNonTerminalMarker =>
        dumpNonTerminalMarkerID3 p.val) =
        dumpNonTerminalMarkerID3 ∘ (fun p => p.val) from rfl,
      ← List.map_map, ← List.map_map, hnt]
  have hsome : g1.pTerminalMarker.isSome = g2.pTerminalMarker.isSome := by
    cases h1 : g1.pTerminalMarker <;> cases h2 : g2.pTerminalMarker <;>
      simp_all
  have htermbytes :
      (match g1.pTerminalMarker with
       | some p => dumpTerminalMarkerID3 p.val
       | none => []) =
      (match g2.pTerminalMarker with
       | some p => dumpTerminalMarkerID3 p.val
       | none => []) := by
    cases h1 : g1.pTerminalMarker <;> cases h2 : g2.pTerminalMarker <;>
      simp_all
  rw [hlen, hjoin, hsome, htermbytes, hfoot]

theorem canonical_valueEq (g : SeratoBeatGrid) :
    seratoBeatGridValueEq
      ⟨g.pTerminalMarker.map (fun p => ⟨0, p.val⟩),
        g.nonTerminalMarkers.map (fun p => ⟨0, p.val⟩), g.footer⟩ g := by
  refine ⟨?_, ?_, rfl⟩
  · rw [List.map_map]
    rfl
  · cases g.pTerminalMarker <;> rfl

/-- C1: the beatgrid codec round-trips. For every well-formed marker
set and every container family, parsing the dumped bytes yields a
marker set with the same marker order, the same marker field values and
the same footer byte; symmetrically, for every byte blob produced by
dumping a well-formed marker set for a family, dumping the parse result
for that family reproduces the blob byte for byte. -/
theorem serato_beatgrid_roundtrip :
    (∀ (g : SeratoBeatGrid) (f : FileType), g.wellFormed →
      ∃ g2, SeratoBeatGrid.parse (g.dump f) f = some g2 ∧
        seratoBeatGridValueEq g2 g) ∧
    (∀ (b : List Nat) (f : FileType) (g : SeratoBeatGrid),
      g.wellFormed → b = g.dump f →
      ∃ g2, SeratoBeatGrid.parse b f = some g2 ∧
        SeratoBeatGrid.dump g2 f = b) := by
  have key : ∀ (g : SeratoBeatGrid) (f : FileType), g.wellFormed →
      SeratoBeatGrid.parse (g.dump f) f =
        some ⟨g.pTerminalMarker.map (fun p => ⟨0, p.val⟩),
          g.nonTerminalMarkers.map (fun p => ⟨0, p.val⟩), g.footer⟩ := by
    intro g f hwf
    unfold SeratoBeatGrid.parse SeratoBeatGrid.dump
    by_cases hb : fileTypeUsesBase64 f
    · simp only [hb, if_true]
      rw [b64_roundtrip _ (dumpID3_bytes_lt g hwf)]
      exact parseID3_dumpID3 g hwf
    · rw [Bool.not_eq_true] at hb
      simp only [hb, Bool.false_eq_true, if_false]
      exact parseID3_dumpID3 g hwf
  constructor
  · intro g f hwf
    exact ⟨_, key g f hwf, canonical_valueEq g⟩
  · intro b f g hwf hbeq
    subst hbeq
    refine ⟨_, key g f hwf, ?_⟩
    have hcongr := dumpID3_congr _ g (canonical_valueEq g)
    unfold SeratoBeatGrid.dump
    rw [hcongr]

/-- Witness for C1: the round trip on a concrete grid with one
non-terminal and one terminal marker, for the raw (MP3) and the
base64 (FLAC) wire encodings. -/
theorem serato_beatgrid_roundtrip_witness :
    exampleBeatGrid.wellFormed ∧
    (∃ g2, SeratoBeatGrid.parse (exampleBeatGrid.dump FileType.MP3)
        FileType.MP3 = some g2 ∧
      seratoBeatGridValueEq g2 exampleBeatGrid) ∧
    (∃ g2, SeratoBeatGrid.parse (exampleBeatGrid.dump FileType.FLAC)
        FileType.FLAC = some g2 ∧
      SeratoBeatGrid.dump g2 FileType.FLAC =
        exampleBeatGrid.dump FileType.FLAC) := by
  have hwf : exampleBeatGrid.wellFormed := by
    refine ⟨?_, ?_, by norm_num [exampleBeatGrid], ?_, by
      norm_num [exampleBeatGrid]⟩
    · intro p hp
      simp [exampleBeatGrid] at hp
      subst hp
      norm_num
    · intro p hp
      rw [show exampleBeatGrid.pTerminalMarker =
        some ⟨7, ⟨1077936128, 1124073472⟩⟩ from rfl] at hp
      cases hp
      norm_num
    · intro hp
      rw [show exampleBeatGrid.pTerminalMarker =
        some ⟨7, ⟨1077936128, 1124073472⟩⟩ from rfl] at hp
      cases hp
  exact ⟨hwf,
    serato_beatgrid_roundtrip.1 exampleBeatGrid FileType.MP3 hwf,
    serato_beatgrid_roundtrip.2 _ FileType.FLAC exampleBeatGrid hwf rfl⟩
